import Mathlib

/-!
# ATTiny13 three-digit frequency counter: the interrupt handlers

A shallow embedding of `ATTiny13LEDDisplayDriver.c`.  The static variables of the
firmware and the `PORTB` register form the `State`; every C function and interrupt
handler is a function `State → State`.  The machine integers are natural numbers with
an explicit `% 256` (`uint8_t`) or `% 65536` (`uint16_t`) wherever the C code can wrap.

Both handlers run between `cli()` and `sei()`, so a handler is one atomic step of the
model and a run of the firmware is a list of events, each an edge on INT0 or a
compare match of timer 0.
-/

namespace ATTiny13

/-! ## Data model -/

/-- The static variables of the firmware together with the output register `PORTB`. -/
structure State where
  /-- Declared `uint8_t`: qualifying ticks since the display refresh started. -/
  ctc_toggle_cycles_to_refresh_display : Nat
  /-- Declared `uint16_t`: qualifying ticks since the measurement window started. -/
  ctc_toggle_cycles_to_refresh_display_sequence : Nat
  /-- Declared `uint16_t`: the pulse tally. -/
  frequency_counter : Nat
  /-- Declared `uint16_t`. -/
  speed : Nat
  /-- Declared `uint8_t speed_digits[3]`: hundreds, tens, ones. -/
  speed_digits : Nat × Nat × Nat
  /-- Declared `uint8_t`. -/
  current_digit_index : Nat
  /-- Declared `uint8_t`. -/
  current_segment_index : Nat
  /-- Declared `uint16_t`. -/
  speed_buffer : Nat
  /-- The 8-bit output register of port B. -/
  PORTB : Nat
  deriving DecidableEq, Repr

/-- Bit numbers of the port-B pins, as in `avr/io.h`. -/
def PB0 : Nat := 0

/-- Pin 2 of port B: data enable of the display chip, active low. -/
def PB2 : Nat := 2

/-- Pin 3 of port B: start bit and serial data. -/
def PB3 : Nat := 3

/-- Pin 4 of port B: the indication LED. -/
def PB4 : Nat := 4

/-- The avr-libc bit-value helper `_BV(n)`, that is `1 << n`. -/
def BV (n : Nat) : Nat := 1 <<< n

/-- The complement `~m` of a bit mask, as it acts on an 8-bit register. -/
def notMask (m : Nat) : Nat := 255 ^^^ m

/-- The table `digits_LED_segments`: index is a digit, value its segments (bit 0 = A,
..., bit 6 = G, bit 7 = decimal point). -/
def digits_LED_segments : List Nat :=
  [0b00111111, 0b00000110, 0b01011011, 0b01001111, 0b01100110,
   0b01101101, 0b01111101, 0b00000111, 0b01111111, 0b01100111]

/-- Reading `digits_LED_segments[d]`.  An index past the table, which C leaves
undefined, reads as 0 here. -/
def segmentsOf (d : Nat) : Nat := digits_LED_segments.getD d 0

/-- Reading `speed_digits[i]`.  An index past the array, which C leaves undefined,
reads as 0 here. -/
def readDigit (ds : Nat × Nat × Nat) (i : Nat) : Nat :=
  match i with
  | 0 => ds.1
  | 1 => ds.2.1
  | 2 => ds.2.2
  | _ => 0

/-! ## Power-on state -/

/-- The state when `main` is entered.  All the statics live in `.bss`.  The routines
in `.init1` and `.init3` store 37 and 282 in the two cycle counters, but the startup
code clears `.bss` afterwards, in `.init4`, and nothing stores them again, so both
counters are 0 at `main`, like the other statics.  `PORTB` is an I/O register, 0 after
reset, and keeps what `.init1` did to it: `PB0` cleared, `PB2` set. -/
def powerOn : State :=
  { ctc_toggle_cycles_to_refresh_display := 0
    ctc_toggle_cycles_to_refresh_display_sequence := 0
    frequency_counter := 0
    speed := 0
    speed_digits := (0, 0, 0)
    current_digit_index := 0
    current_segment_index := 0
    speed_buffer := 0
    PORTB := (0 &&& notMask (BV PB0)) ||| BV PB2 }

/-- The state that `.init1` and `.init3` set up and that `main` would see if `.bss` were
not cleared after them: the refresh counter at 37 and the window counter at 282. -/
def intendedPowerOn : State :=
  { powerOn with ctc_toggle_cycles_to_refresh_display := 37
                 ctc_toggle_cycles_to_refresh_display_sequence := 282 }

/-! ## The edge handler -/

/-- The handler `ISR (INT0_vect)`: toggle the LED on `PB4`, count the edge. -/
def INT0_vect (s : State) : State :=
  let s1 := { s with PORTB := s.PORTB ^^^ BV PB4 }
  { s1 with frequency_counter := (s1.frequency_counter + 1) % 65536 }

/-! ## The rate window -/

/-- The function `frequencyToSpeed`. -/
def frequencyToSpeed (s : State) : State :=
  let s1 := { s with ctc_toggle_cycles_to_refresh_display_sequence :=
    (s.ctc_toggle_cycles_to_refresh_display_sequence + 1) % 65536 }
  if s1.ctc_toggle_cycles_to_refresh_display_sequence = 283 then
    let s2 := { s1 with ctc_toggle_cycles_to_refresh_display_sequence := 0 }
    let s3 := { s2 with speed := s2.frequency_counter }
    let s4 := { s3 with frequency_counter := 0 }
    if s4.speed > 999 then { s4 with speed := 999 } else s4
  else s1

/-! ## The digit decomposer -/

/-- The loop `while (speed_buffer >= step) { speed_buffer -= step; digit++; }` on the
pair (speed_buffer, digit); the digit is a `uint8_t`.  Every iteration lowers the
buffer, so a fuel of at least the buffer's value is never used up
(`subtractLoop_exit`). -/
def subtractLoop (step : Nat) : Nat → Nat → Nat → Nat × Nat
  | 0, buf, digit => (buf, digit)
  | fuel + 1, buf, digit =>
    if buf ≥ step then subtractLoop step fuel (buf - step) ((digit + 1) % 256)
    else (buf, digit)

/-- The function `updateDisplaySequence`. -/
def updateDisplaySequence (s : State) : State :=
  let s1 := { s with speed_buffer := s.speed }
  let s2 := { s1 with speed_digits := (0, 0, 0) }
  let h := subtractLoop 100 s2.speed_buffer s2.speed_buffer s2.speed_digits.1
  let s3 := { s2 with speed_buffer := h.1, speed_digits := (h.2, s2.speed_digits.2) }
  let t := subtractLoop 10 s3.speed_buffer s3.speed_buffer s3.speed_digits.2.1
  let s4 := { s3 with speed_buffer := t.1,
                      speed_digits := (s3.speed_digits.1, t.2, s3.speed_digits.2.2) }
  let s5 := { s4 with speed_digits :=
    (s4.speed_digits.1, s4.speed_digits.2.1, s4.speed_buffer % 256) }
  let s6 := { s5 with current_digit_index := 2 }
  { s6 with current_segment_index := 7 }

/-! ## The timer handler -/

/-- The cursor advance of the timer handler:
`if ((++current_segment_index) > 7) { current_segment_index = 0;
 if (++current_digit_index > 2) current_digit_index = 0; }`. -/
def advanceCursor (s : State) : State :=
  let s1 := { s with current_segment_index := (s.current_segment_index + 1) % 256 }
  if s1.current_segment_index > 7 then
    let s2 := { s1 with current_segment_index := 0 }
    let s3 := { s2 with current_digit_index := (s2.current_digit_index + 1) % 256 }
    if s3.current_digit_index > 2 then { s3 with current_digit_index := 0 } else s3
  else s1

/-- The display part of the timer handler, the `if (++ctc_toggle_cycles_to_refresh_display
== 38) ... else if ... else ...` statement.  The delay loop has no effect on the
state. -/
def refreshDisplay (s : State) : State :=
  let s1 := { s with ctc_toggle_cycles_to_refresh_display :=
    (s.ctc_toggle_cycles_to_refresh_display + 1) % 256 }
  if s1.ctc_toggle_cycles_to_refresh_display = 38 then
    let s2 := { s1 with ctc_toggle_cycles_to_refresh_display := 0 }
    let s3 := updateDisplaySequence s2
    let s4 := { s3 with PORTB := s3.PORTB &&& notMask (BV PB2) }
    { s4 with PORTB := s4.PORTB ||| BV PB3 }
  else if s1.ctc_toggle_cycles_to_refresh_display = 37 then
    { s1 with PORTB := s1.PORTB ||| BV PB2 }
  else
    let s2 := { s1 with PORTB := s1.PORTB &&& notMask (BV PB3) }
    if s2.ctc_toggle_cycles_to_refresh_display < 25 then
      let s3 := advanceCursor s2
      if segmentsOf (readDigit s3.speed_digits s3.current_digit_index)
          &&& BV s3.current_segment_index ≠ 0 then
        { s3 with PORTB := s3.PORTB ||| BV PB3 }
      else s3
    else s2

/-- The handler `ISR (TIM0_COMPA_vect)`: toggle the clock pin `PB0` and, when the pin
is now low, run the rate window and then the display part. -/
def TIM0_COMPA_vect (s : State) : State :=
  let s1 := { s with PORTB := s.PORTB ^^^ BV PB0 }
  if s1.PORTB &&& BV PB0 = 0 then refreshDisplay (frequencyToSpeed s1) else s1

/-! ## Runs of the firmware -/

/-- What wakes the processor: a rising edge on INT0 or a compare match of timer 0. -/
inductive Event where
  | edge
  | tick
  deriving DecidableEq, Repr

/-- One handler run. -/
def step (s : State) : Event → State
  | Event.edge => INT0_vect s
  | Event.tick => TIM0_COMPA_vect s

/-- The state after the handlers of a list of events have run, first event first. -/
def run (s : State) : List Event → State
  | [] => s
  | e :: es => run (step s e) es

/-- A timer tick taken in state `s` is a qualifying tick: the clock pin is low after
the toggle, so the handler runs the rate window and the display part. -/
def qualifying (s : State) : Bool :=
  (s.PORTB ^^^ BV PB0) &&& BV PB0 = 0

/-- The states right after each qualifying tick of a run, in order. -/
def qualTrace (s : State) : List Event → List State
  | [] => []
  | Event.edge :: es => qualTrace (step s Event.edge) es
  | Event.tick :: es =>
    if qualifying s then step s Event.tick :: qualTrace (step s Event.tick) es
    else qualTrace (step s Event.tick) es

/-! ## Observations used by the statements -/

/-- The pin `n` of port B is high: the C test `PORTB & _BV(n)` is nonzero. -/
def pinHigh (s : State) (n : Nat) : Bool := s.PORTB &&& BV n ≠ 0

/-- The cursor (digit index, segment index) that the source leaves after the tick in
which the refresh counter becomes `k`: the reset position (2, 7) at START and after
the 24 segment ticks, position `k - 1` of the 3 x 8 grid in between. -/
def cursorAt (k : Nat) : Nat × Nat :=
  if k = 0 ∨ 24 < k then (2, 7) else ((k - 1) / 8, (k - 1) % 8)

/-- The level of `PB3` after the tick in which the refresh counter becomes `k`, for the
digits `ds`: high at START, the looked-up segment bit on the 24 segment ticks, low
afterwards. -/
def dataPin (ds : Nat × Nat × Nat) (k : Nat) : Bool :=
  if k = 0 then true
  else if k ≤ 24 then (segmentsOf (readDigit ds ((k - 1) / 8))).testBit ((k - 1) % 8)
  else false

/-- The state `s` is the one a refresh cycle showing the digits `ds` has after the tick
in which the refresh counter became `k`. -/
def InFrame (ds : Nat × Nat × Nat) (k : Nat) (s : State) : Prop :=
  s.ctc_toggle_cycles_to_refresh_display = k ∧
  s.speed_digits = ds ∧
  (s.current_digit_index, s.current_segment_index) = cursorAt k ∧
  pinHigh s PB2 = decide (k = 37) ∧
  pinHigh s PB3 = dataPin ds k

/-- The decimal digits of a value below 1000: hundreds, tens, ones. -/
def decimalDigits (v : Nat) : Nat × Nat × Nat := (v / 100, v / 10 % 10, v % 10)

/-- The cursor with which the timer handler, run in state `s`, indexes `speed_digits`
and `digits_LED_segments`; `none` when this run of the handler does no lookup.  The
control flow is that of `TIM0_COMPA_vect` and `refreshDisplay`. -/
def lookupCursor (s : State) : Option (Nat × Nat) :=
  let s1 := { s with PORTB := s.PORTB ^^^ BV PB0 }
  if s1.PORTB &&& BV PB0 = 0 then
    let s2 := frequencyToSpeed s1
    let s3 := { s2 with ctc_toggle_cycles_to_refresh_display :=
      (s2.ctc_toggle_cycles_to_refresh_display + 1) % 256 }
    if s3.ctc_toggle_cycles_to_refresh_display = 38 then none
    else if s3.ctc_toggle_cycles_to_refresh_display = 37 then none
    else if s3.ctc_toggle_cycles_to_refresh_display < 25 then
      let s4 := advanceCursor { s3 with PORTB := s3.PORTB &&& notMask (BV PB3) }
      some (s4.current_digit_index, s4.current_segment_index)
    else none
  else none

/-- The cursors of the table lookups of a run, in order. -/
def lookupTrace (s : State) : List Event → List (Nat × Nat)
  | [] => []
  | Event.edge :: es => lookupTrace (step s Event.edge) es
  | Event.tick :: es =>
    match lookupCursor s with
    | some c => c :: lookupTrace (step s Event.tick) es
    | none => lookupTrace (step s Event.tick) es

/-- A timer tick taken in state `s` is a window rollover: it is a qualifying tick and
the incremented window counter equals 283. -/
def isRollover (s : State) : Bool :=
  qualifying s && ((s.ctc_toggle_cycles_to_refresh_display_sequence + 1) % 65536 == 283)

/-- No timer tick of the run is a window rollover. -/
def noRollover (s : State) : List Event → Bool
  | [] => true
  | Event.edge :: es => noRollover (step s Event.edge) es
  | Event.tick :: es => !isRollover s && noRollover (step s Event.tick) es

/-! ## Concrete scenarios

The states below are written out field by field; the lemmas named `..._reachable` show
by which events the firmware gets into them from power-on. -/

/-- The state 74 ticks after power-on, right after the 37th qualifying tick: the refresh
counter has reached 37, so the next qualifying tick is the first START tick. -/
def beforeFirstStart : State :=
  { ctc_toggle_cycles_to_refresh_display := 37
    ctc_toggle_cycles_to_refresh_display_sequence := 37
    frequency_counter := 0
    speed := 0
    speed_digits := (0, 0, 0)
    current_digit_index := 0
    current_segment_index := 0
    speed_buffer := 0
    PORTB := 4 }

/-- The state after 305 edges and then 564 ticks from power-on, right after the 282nd
qualifying tick: the tally is 305 and the window counter has reached 282, so the next
qualifying tick is the first window rollover. -/
def beforeRollover : State :=
  { ctc_toggle_cycles_to_refresh_display := 16
    ctc_toggle_cycles_to_refresh_display_sequence := 282
    frequency_counter := 305
    speed := 0
    speed_digits := (0, 0, 0)
    current_digit_index := 1
    current_segment_index := 7
    speed_buffer := 0
    PORTB := 16 }

/-- The state two ticks after `beforeRollover`, right after the first window rollover:
the speed is 305 and the tally is 0 again. -/
def afterRollover : State :=
  { ctc_toggle_cycles_to_refresh_display := 17
    ctc_toggle_cycles_to_refresh_display_sequence := 0
    frequency_counter := 0
    speed := 305
    speed_digits := (0, 0, 0)
    current_digit_index := 2
    current_segment_index := 0
    speed_buffer := 0
    PORTB := 24 }

/-- The state 40 ticks after `afterRollover`, right after the 303rd qualifying tick: the
refresh counter has reached 37, so the next qualifying tick is a START tick, and it
finds the speed 305. -/
def burstState : State :=
  { ctc_toggle_cycles_to_refresh_display := 37
    ctc_toggle_cycles_to_refresh_display_sequence := 20
    frequency_counter := 0
    speed := 305
    speed_digits := (0, 0, 0)
    current_digit_index := 2
    current_segment_index := 7
    speed_buffer := 0
    PORTB := 20 }

/-- A state whose speed is the largest one the display can show. -/
def saturatedState : State := { powerOn with speed := 999 }

/-- Seventy-six ticks, of which every second one qualifies: one refresh cycle. -/
def fullCycle : List Event := List.replicate 76 Event.tick

/-- The 565 ticks between two rollovers, with three edges among them. -/
def windowWithThreeEdges : List Event :=
  List.replicate 200 Event.tick ++ [Event.edge, Event.edge] ++
    List.replicate 300 Event.tick ++ [Event.edge] ++ List.replicate 65 Event.tick

/-- A burst of 65536 edges, then the 565 ticks that lead up to the next rollover. -/
def overflowBurst : List Event :=
  List.replicate 65536 Event.edge ++ List.replicate 565 Event.tick

/-! ## Phases of the refresh cycle -/

/-- A timer tick taken in state `s` is a START tick: it is a qualifying tick and the
incremented refresh counter equals 38, so `updateDisplaySequence` runs. -/
def isStart (s : State) : Bool :=
  qualifying s && ((s.ctc_toggle_cycles_to_refresh_display + 1) % 256 == 38)

/-- No timer tick of the run is a START tick. -/
def noStart (s : State) : List Event → Bool
  | [] => true
  | Event.edge :: es => noStart (step s Event.edge) es
  | Event.tick :: es => !isStart s && noStart (step s Event.tick) es

/-- The branch of the display part that a qualifying tick takes: the START branch, the
branch that advances the cursor and sends a segment bit, the branch that only drives
`PB3` low, or the END branch. -/
inductive Phase where
  | start
  | segment
  | trailing
  | frameEnd
  deriving DecidableEq, Repr

/-- The branch that the timer handler, run in state `s`, takes in its display part;
`none` when the tick does not qualify.  The control flow is that of `TIM0_COMPA_vect`
and `refreshDisplay`. -/
def tickPhase (s : State) : Option Phase :=
  let s1 := { s with PORTB := s.PORTB ^^^ BV PB0 }
  if s1.PORTB &&& BV PB0 = 0 then
    let s2 := frequencyToSpeed s1
    let s3 := { s2 with ctc_toggle_cycles_to_refresh_display :=
      (s2.ctc_toggle_cycles_to_refresh_display + 1) % 256 }
    if s3.ctc_toggle_cycles_to_refresh_display = 38 then some Phase.start
    else if s3.ctc_toggle_cycles_to_refresh_display = 37 then some Phase.frameEnd
    else if s3.ctc_toggle_cycles_to_refresh_display < 25 then some Phase.segment
    else some Phase.trailing
  else none

/-- The branches taken by the qualifying ticks of a run, in order. -/
def phaseTrace (s : State) : List Event → List Phase
  | [] => []
  | Event.edge :: es => phaseTrace (step s Event.edge) es
  | Event.tick :: es =>
    match tickPhase s with
    | some p => p :: phaseTrace (step s Event.tick) es
    | none => phaseTrace (step s Event.tick) es

/-- The branch taken by the qualifying tick that finds the refresh counter at `k`. -/
def phaseAt (k : Nat) : Phase :=
  if k = 37 then Phase.start
  else if k = 36 then Phase.frameEnd
  else if k < 24 then Phase.segment
  else Phase.trailing

/-! ## More concrete scenarios -/

/-- The 531 ticks after power-on that lead up to the START tick of the seventh refresh
cycle (qualifying tick 266), the cycle in which the first window rollover falls. -/
def lateCyclePrefix : List Event := List.replicate 531 Event.tick

/-- Five edges and then 40 ticks inside the seventh refresh cycle; the 17th of these
qualifying ticks (qualifying tick 283) is a window rollover. -/
def lateCycleEvents : List Event :=
  List.replicate 5 Event.edge ++ List.replicate 40 Event.tick

/-- A state right before a tick that is both a window rollover and a START tick, with
the tally at 1234: the window counter is 282, the refresh counter is 37 and the clock
pin is high.  From power-on the two counters are in this position before the
qualifying ticks 10754, 21508, ... (`coinciding_tick_reachable`). -/
def heavyBurstState : State :=
  { ctc_toggle_cycles_to_refresh_display := 37
    ctc_toggle_cycles_to_refresh_display_sequence := 282
    frequency_counter := 1234
    speed := 0
    speed_digits := (0, 0, 0)
    current_digit_index := 2
    current_segment_index := 7
    speed_buffer := 0
    PORTB := 5 }

/-- The state two edges and nine ticks after `afterRollover`: the clock pin is high,
the window counter is 4 and the tally is 2, so the next tick qualifies without being a
rollover. -/
def midWindowState : State :=
  { ctc_toggle_cycles_to_refresh_display := 21
    ctc_toggle_cycles_to_refresh_display_sequence := 4
    frequency_counter := 2
    speed := 305
    speed_digits := (0, 0, 0)
    current_digit_index := 2
    current_segment_index := 4
    speed_buffer := 0
    PORTB := 25 }

/-! # Lemmas

## Bits of the port register -/

theorem and_BV_ne_zero (x n : Nat) : (x &&& BV n ≠ 0) ↔ x.testBit n = true := by
  unfold BV
  rw [Nat.one_shiftLeft, Nat.and_two_pow]
  cases x.testBit n <;> simp

theorem and_BV_eq_zero (x n : Nat) : (x &&& BV n = 0) ↔ x.testBit n = false := by
  have h := and_BV_ne_zero x n
  cases hb : x.testBit n
  · rw [hb] at h; simp at h; simp [h]
  · rw [hb] at h; simp at h; simp [h]

theorem pinHigh_eq_testBit (s : State) (n : Nat) : pinHigh s n = s.PORTB.testBit n := by
  unfold pinHigh
  rw [Bool.eq_iff_iff, decide_eq_true_iff]
  exact and_BV_ne_zero _ _

theorem BV_testBit (n m : Nat) : (BV n).testBit m = decide (n = m) := by
  unfold BV
  rw [Nat.one_shiftLeft]
  exact Nat.testBit_two_pow

theorem pins_lt : PB0 < 8 ∧ PB2 < 8 ∧ PB3 < 8 ∧ PB4 < 8 := by decide

theorem pins_ne :
    PB0 ≠ PB2 ∧ PB0 ≠ PB3 ∧ PB0 ≠ PB4 ∧ PB2 ≠ PB0 ∧ PB2 ≠ PB3 ∧ PB2 ≠ PB4 ∧
    PB3 ≠ PB0 ∧ PB3 ≠ PB2 ∧ PB3 ≠ PB4 ∧ PB4 ≠ PB0 ∧ PB4 ≠ PB2 ∧ PB4 ≠ PB3 := by decide

theorem notMask_BV_testBit (n m : Nat) (hm : m < 8) :
    (notMask (BV n)).testBit m = !decide (n = m) := by
  unfold notMask
  rw [Nat.testBit_xor, BV_testBit]
  have h255 : Nat.testBit 255 m = true := by
    interval_cases m <;> decide
  rw [h255]
  by_cases h : n = m <;> simp [h]

theorem testBit_toggle (x n m : Nat) :
    (x ^^^ BV n).testBit m = (x.testBit m ^^ decide (n = m)) := by
  rw [Nat.testBit_xor, BV_testBit]

theorem qualifying_eq (s : State) : qualifying s = s.PORTB.testBit PB0 := by
  unfold qualifying
  rw [Bool.eq_iff_iff, decide_eq_true_iff, and_BV_eq_zero, testBit_toggle]
  cases s.PORTB.testBit PB0 <;> simp

/-! ## The loops of the digit decomposer -/

theorem subtractLoop_eq (step : Nat) (hstep : 0 < step) :
    ∀ (fuel buf digit : Nat), buf ≤ fuel → digit < 256 →
      subtractLoop step fuel buf digit = (buf % step, (digit + buf / step) % 256) := by
  intro fuel
  induction fuel with
  | zero =>
    intro buf digit hb hd
    have hb0 : buf = 0 := Nat.le_zero.mp hb
    subst hb0
    simp [subtractLoop, Nat.mod_eq_of_lt hd]
  | succ fuel ih =>
    intro buf digit hb hd
    unfold subtractLoop
    by_cases hge : buf ≥ step
    · rw [if_pos hge, ih (buf - step) ((digit + 1) % 256) (by omega) (Nat.mod_lt _ (by decide))]
      rw [Nat.mod_eq_sub_mod hge, Nat.div_eq_sub_div hstep hge]
      generalize (buf - step) / step = q
      congr 1
      omega
    · rw [if_neg hge]
      have hlt : buf < step := Nat.lt_of_not_ge hge
      rw [Nat.mod_eq_of_lt hlt, Nat.div_eq_of_lt hlt, Nat.add_zero, Nat.mod_eq_of_lt hd]

/-- The fuel given to a loop is never used up: the loop stops because its condition
`buf >= step` has become false. -/
theorem subtractLoop_exit (step : Nat) (hstep : 0 < step) (fuel buf digit : Nat)
    (hb : buf ≤ fuel) (hd : digit < 256) :
    (subtractLoop step fuel buf digit).1 < step := by
  rw [subtractLoop_eq step hstep fuel buf digit hb hd]
  exact Nat.mod_lt _ hstep

theorem updateDisplaySequence_eq (s : State) :
    updateDisplaySequence s =
      { s with speed_buffer := s.speed % 10
               speed_digits := (s.speed / 100 % 256, s.speed % 100 / 10, s.speed % 10)
               current_digit_index := 2
               current_segment_index := 7 } := by
  unfold updateDisplaySequence
  simp only []
  rw [subtractLoop_eq 100 (by decide) _ _ _ (Nat.le_refl _) (by decide)]
  simp only []
  rw [subtractLoop_eq 10 (by decide) _ _ _ (Nat.le_refl _) (by decide)]
  simp only [Nat.zero_add]
  have h1 : s.speed % 100 / 10 % 256 = s.speed % 100 / 10 := by omega
  have h2 : s.speed % 100 % 10 % 256 = s.speed % 10 := by omega
  have h3 : s.speed % 100 % 10 = s.speed % 10 := by omega
  rw [h1, h2, h3]

/-! ## What each handler leaves alone -/

theorem frequencyToSpeed_display (s : State) :
    (frequencyToSpeed s).ctc_toggle_cycles_to_refresh_display =
        s.ctc_toggle_cycles_to_refresh_display ∧
    (frequencyToSpeed s).speed_digits = s.speed_digits ∧
    (frequencyToSpeed s).current_digit_index = s.current_digit_index ∧
    (frequencyToSpeed s).current_segment_index = s.current_segment_index ∧
    (frequencyToSpeed s).PORTB = s.PORTB := by
  unfold frequencyToSpeed
  simp only []
  split
  · split <;> simp
  · simp

theorem frequencyToSpeed_speed_le (s : State) (h : s.speed ≤ 999) :
    (frequencyToSpeed s).speed ≤ 999 := by
  unfold frequencyToSpeed
  simp only []
  split
  · split
    · simp
    · simp; omega
  · simpa using h

theorem refreshDisplay_measure (s : State) :
    (refreshDisplay s).speed = s.speed ∧
    (refreshDisplay s).frequency_counter = s.frequency_counter ∧
    (refreshDisplay s).ctc_toggle_cycles_to_refresh_display_sequence =
      s.ctc_toggle_cycles_to_refresh_display_sequence := by
  unfold refreshDisplay advanceCursor
  simp only [updateDisplaySequence_eq]
  split
  · simp
  · split
    · simp
    · split
      · split <;> split <;> (try split) <;> simp
      · simp

theorem TIM0_COMPA_vect_idle (s : State) (h : qualifying s = false) :
    TIM0_COMPA_vect s = { s with PORTB := s.PORTB ^^^ BV PB0 } := by
  unfold qualifying at h
  unfold TIM0_COMPA_vect
  simp only []
  rw [if_neg (by simpa using h)]

theorem TIM0_COMPA_vect_qualifying (s : State) (h : qualifying s = true) :
    TIM0_COMPA_vect s =
      refreshDisplay (frequencyToSpeed { s with PORTB := s.PORTB ^^^ BV PB0 }) := by
  unfold qualifying at h
  unfold TIM0_COMPA_vect
  simp only []
  rw [if_pos (by simpa using h)]

theorem qualifying_edge (s : State) : qualifying (INT0_vect s) = qualifying s := by
  rw [qualifying_eq, qualifying_eq]
  simp [INT0_vect, BV_testBit, pins_ne]

theorem refreshDisplay_PB0 (s : State) :
    (refreshDisplay s).PORTB.testBit PB0 = s.PORTB.testBit PB0 := by
  unfold refreshDisplay advanceCursor
  simp only [updateDisplaySequence_eq]
  split
  · simp [BV_testBit, notMask_BV_testBit, pins_ne, pins_lt]
  · split
    · simp [BV_testBit, notMask_BV_testBit, pins_ne, pins_lt]
    · split
      · split <;> split <;> (try split) <;>
          simp [BV_testBit, notMask_BV_testBit, pins_ne, pins_lt]
      · simp [BV_testBit, notMask_BV_testBit, pins_ne, pins_lt]

theorem qualifying_tick (s : State) : qualifying (TIM0_COMPA_vect s) = !qualifying s := by
  cases h : qualifying s
  · rw [TIM0_COMPA_vect_idle s h, qualifying_eq]
    rw [qualifying_eq] at h
    simp [BV_testBit, h]
  · rw [TIM0_COMPA_vect_qualifying s h, qualifying_eq, refreshDisplay_PB0,
      (frequencyToSpeed_display _).2.2.2.2]
    rw [qualifying_eq] at h
    simp [BV_testBit, h]

/-! ## The refresh cycle, one tick at a time -/

theorem advanceCursor_at (s : State) (k : Nat) (hk : k < 24)
    (hc : (s.current_digit_index, s.current_segment_index) = cursorAt k) :
    advanceCursor s = { s with current_digit_index := k / 8, current_segment_index := k % 8 } := by
  unfold cursorAt at hc
  unfold advanceCursor
  by_cases h0 : k = 0
  · subst h0
    simp only [true_or, if_true, Prod.mk.injEq] at hc
    simp [hc.1, hc.2]
  · rw [if_neg (by omega)] at hc
    simp only [Prod.mk.injEq] at hc
    obtain ⟨hd, hs⟩ := hc
    by_cases h7 : (k - 1) % 8 = 7
    · have e1 : (s.current_segment_index + 1) % 256 = 8 := by omega
      have e2 : (s.current_digit_index + 1) % 256 = k / 8 := by omega
      have e3 : ¬ k / 8 > 2 := by omega
      have e4 : k % 8 = 0 := by omega
      simp [e1, e2, e3, e4]
    · have e1 : (s.current_segment_index + 1) % 256 = k % 8 := by omega
      have e2 : ¬ k % 8 > 7 := by omega
      have e3 : s.current_digit_index = k / 8 := by omega
      simp [e1, e2, e3]

theorem inFrame_edge {ds : Nat × Nat × Nat} {k : Nat} {s : State} (h : InFrame ds k s) :
    InFrame ds k (INT0_vect s) := by
  unfold InFrame at h ⊢
  simp only [pinHigh_eq_testBit] at h ⊢
  obtain ⟨h1, h2, h3, h4, h5⟩ := h
  simp [INT0_vect, BV_testBit, pins_ne, h1, h2, h3, h4, h5]

theorem inFrame_rateWindow {ds : Nat × Nat × Nat} {k : Nat} {s : State} (h : InFrame ds k s) :
    InFrame ds k (frequencyToSpeed { s with PORTB := s.PORTB ^^^ BV PB0 }) := by
  unfold InFrame at h ⊢
  simp only [pinHigh_eq_testBit] at h ⊢
  obtain ⟨h1, h2, h3, h4, h5⟩ := h
  obtain ⟨f1, f2, f3, f4, f5⟩ := frequencyToSpeed_display { s with PORTB := s.PORTB ^^^ BV PB0 }
  rw [f1, f2, f3, f4, f5]
  simp [BV_testBit, pins_ne, h1, h2, h3, h4, h5]

theorem inFrame_idle {ds : Nat × Nat × Nat} {k : Nat} {s : State} (h : InFrame ds k s)
    (hq : qualifying s = false) : InFrame ds k (TIM0_COMPA_vect s) := by
  rw [TIM0_COMPA_vect_idle s hq]
  unfold InFrame at h ⊢
  simp only [pinHigh_eq_testBit] at h ⊢
  obtain ⟨h1, h2, h3, h4, h5⟩ := h
  simp [BV_testBit, pins_ne, h1, h2, h3, h4, h5]

theorem inFrame_refresh {ds : Nat × Nat × Nat} {k : Nat} {s : State} (h : InFrame ds k s)
    (hk : k < 37) : InFrame ds (k + 1) (refreshDisplay s) := by
  have hc := h.2.2.1
  unfold InFrame at h ⊢
  simp only [pinHigh_eq_testBit] at h ⊢
  obtain ⟨h1, h2, -, h4, h5⟩ := h
  have hmod : (k + 1) % 256 = k + 1 := by omega
  have h38 : ¬ k + 1 = 38 := by omega
  unfold refreshDisplay
  simp only [h1, hmod, if_neg h38]
  by_cases h36 : k = 36
  · subst h36
    simp [BV_testBit, pins_ne, h2, h4, h5, cursorAt, dataPin] at hc ⊢
    exact hc
  · have h37 : ¬ k + 1 = 37 := by omega
    rw [if_neg h37]
    by_cases h24 : k < 24
    · have h25 : k + 1 < 25 := by omega
      have ha := advanceCursor_at
        { s with ctc_toggle_cycles_to_refresh_display := k + 1,
                 PORTB := s.PORTB &&& notMask (BV PB3) } k h24 hc
      rw [if_pos h25, ha]
      have hcur : cursorAt (k + 1) = (k / 8, k % 8) := by
        unfold cursorAt
        rw [if_neg (by omega)]
        simp
      have hpin : dataPin ds (k + 1) = (segmentsOf (readDigit ds (k / 8))).testBit (k % 8) := by
        unfold dataPin
        rw [if_neg (by omega), if_pos (by omega)]
        simp
      have hk37 : ¬ k = 37 := by omega
      have hk37b : ¬ k + 1 = 37 := by omega
      simp only [h2, hcur, hpin]
      by_cases hbit : segmentsOf (readDigit ds (k / 8)) &&& BV (k % 8) ≠ 0
      · rw [if_pos hbit]
        rw [and_BV_ne_zero] at hbit
        simp [BV_testBit, notMask_BV_testBit, pins_ne, pins_lt, h4, hbit, hk37, hk37b]
      · rw [if_neg hbit]
        rw [and_BV_ne_zero, Bool.not_eq_true] at hbit
        simp [BV_testBit, notMask_BV_testBit, pins_ne, pins_lt, h4, hbit, hk37, hk37b]
    · have h25 : ¬ k + 1 < 25 := by omega
      rw [if_neg h25]
      have hcur : cursorAt (k + 1) = cursorAt k := by
        unfold cursorAt
        by_cases e : k = 24
        · subst e; simp
        · rw [if_pos (by omega), if_pos (by omega)]
      have hpin : dataPin ds (k + 1) = false := by
        unfold dataPin
        rw [if_neg (by omega), if_neg (by omega)]
      have hk37 : ¬ k = 37 := by omega
      simp [BV_testBit, notMask_BV_testBit, pins_ne, pins_lt, h2, h4, hcur, hpin, hk37, h37]
      exact hc

theorem inFrame_tick {ds : Nat × Nat × Nat} {k : Nat} {s : State} (h : InFrame ds k s)
    (hk : k < 37) (hq : qualifying s = true) : InFrame ds (k + 1) (TIM0_COMPA_vect s) := by
  rw [TIM0_COMPA_vect_qualifying s hq]
  exact inFrame_refresh (inFrame_rateWindow h) hk

theorem refreshDisplay_start (s : State) (h : s.ctc_toggle_cycles_to_refresh_display = 37) :
    InFrame (s.speed / 100 % 256, s.speed % 100 / 10, s.speed % 10) 0 (refreshDisplay s) := by
  unfold refreshDisplay InFrame
  simp only [pinHigh_eq_testBit, h, updateDisplaySequence_eq]
  simp [BV_testBit, notMask_BV_testBit, pins_ne, pins_lt, cursorAt, dataPin]

theorem TIM0_COMPA_vect_speed (s : State) (hq : qualifying s = true) :
    (TIM0_COMPA_vect s).speed =
      (frequencyToSpeed { s with PORTB := s.PORTB ^^^ BV PB0 }).speed := by
  rw [TIM0_COMPA_vect_qualifying s hq]
  exact (refreshDisplay_measure _).1

theorem TIM0_COMPA_vect_start (s : State) (h : s.ctc_toggle_cycles_to_refresh_display = 37)
    (hq : qualifying s = true) :
    InFrame ((TIM0_COMPA_vect s).speed / 100 % 256, (TIM0_COMPA_vect s).speed % 100 / 10,
      (TIM0_COMPA_vect s).speed % 10) 0 (TIM0_COMPA_vect s) := by
  rw [TIM0_COMPA_vect_speed s hq, TIM0_COMPA_vect_qualifying s hq]
  apply refreshDisplay_start
  rw [(frequencyToSpeed_display _).1]
  exact h

/-! ## The refresh cycle along a run -/

theorem INT0_vect_refresh (s : State) :
    (INT0_vect s).ctc_toggle_cycles_to_refresh_display =
      s.ctc_toggle_cycles_to_refresh_display := by
  simp [INT0_vect]

theorem TIM0_COMPA_vect_idle_refresh (s : State) (hq : qualifying s = false) :
    (TIM0_COMPA_vect s).ctc_toggle_cycles_to_refresh_display =
      s.ctc_toggle_cycles_to_refresh_display := by
  rw [TIM0_COMPA_vect_idle s hq]

theorem qualTrace_inFrame (ds : Nat × Nat × Nat) :
    ∀ (es : List Event) (s : State) (k : Nat), InFrame ds k s →
      ∀ (j : Nat) (st : State), (qualTrace s es)[j]? = some st → k + j + 1 ≤ 37 →
        InFrame ds (k + j + 1) st := by
  intro es
  induction es with
  | nil =>
    intro s k _ j st hj _
    simp [qualTrace] at hj
  | cons e es ih =>
    intro s k h j st hj hle
    cases e with
    | edge =>
      simp only [qualTrace, step] at hj
      exact ih (INT0_vect s) k (inFrame_edge h) j st hj hle
    | tick =>
      cases hq : qualifying s with
      | false =>
        simp only [qualTrace, step, hq] at hj
        exact ih (TIM0_COMPA_vect s) k (inFrame_idle h hq) j st hj hle
      | true =>
        simp only [qualTrace, step, hq, if_true] at hj
        cases j with
        | zero =>
          simp only [List.getElem?_cons_zero, Option.some.injEq] at hj
          rw [← hj]
          exact inFrame_tick h (by omega) hq
        | succ j =>
          simp only [List.getElem?_cons_succ] at hj
          have h' := ih (TIM0_COMPA_vect s) (k + 1) (inFrame_tick h (by omega) hq) j st hj (by omega)
          have e : k + (j + 1) + 1 = k + 1 + j + 1 := by omega
          rw [e]
          exact h'

theorem qualTrace_cycle :
    ∀ (es : List Event) (s : State), s.ctc_toggle_cycles_to_refresh_display = 37 →
      ∀ (st0 : State), (qualTrace s es)[0]? = some st0 →
        ∀ (j : Nat) (st : State), (qualTrace s es)[j]? = some st → j ≤ 37 →
          InFrame (st0.speed / 100 % 256, st0.speed % 100 / 10, st0.speed % 10) j st := by
  intro es
  induction es with
  | nil =>
    intro s _ st0 h0
    simp [qualTrace] at h0
  | cons e es ih =>
    intro s h37 st0 h0 j st hj hle
    cases e with
    | edge =>
      simp only [qualTrace, step] at h0 hj
      exact ih (INT0_vect s) (by rw [INT0_vect_refresh, h37]) st0 h0 j st hj hle
    | tick =>
      cases hq : qualifying s with
      | false =>
        simp only [qualTrace, step, hq] at h0 hj
        exact ih (TIM0_COMPA_vect s) (by rw [TIM0_COMPA_vect_idle_refresh s hq, h37])
          st0 h0 j st hj hle
      | true =>
        simp only [qualTrace, step, hq, if_true] at h0 hj
        simp only [List.getElem?_cons_zero, Option.some.injEq] at h0
        have hstart := TIM0_COMPA_vect_start s h37 hq
        rw [h0] at hstart
        cases j with
        | zero =>
          simp only [List.getElem?_cons_zero, Option.some.injEq] at hj
          rw [← hj, h0]
          exact hstart
        | succ j =>
          simp only [List.getElem?_cons_succ] at hj
          rw [h0] at hj
          have h' := qualTrace_inFrame _ es st0 0 hstart j st hj (by omega)
          have e : j + 1 = 0 + j + 1 := by omega
          rw [e]
          exact h'

theorem decimalDigits_eq (v : Nat) (hv : v ≤ 999) :
    (v / 100 % 256, v % 100 / 10, v % 10) = decimalDigits v := by
  unfold decimalDigits
  have h1 : v / 100 % 256 = v / 100 := by omega
  have h2 : v % 100 / 10 = v / 10 % 10 := by omega
  rw [h1, h2]

theorem run_append (s : State) (es fs : List Event) :
    run s (es ++ fs) = run (run s es) fs := by
  induction es generalizing s with
  | nil => rfl
  | cons e es ih => exact ih (step s e)

theorem qualTrace_head_of_getElem? (s : State) (es : List Event) (j : Nat) (st : State)
    (hj : (qualTrace s es)[j]? = some st) :
    ∃ st0, (qualTrace s es)[0]? = some st0 := by
  cases hq : qualTrace s es with
  | nil => rw [hq] at hj; simp at hj
  | cons a l => exact ⟨a, by simp⟩

theorem map_eq_of_pointwise (l : List State) (f : State → Bool) (g : Nat → Bool) (n : Nat)
    (hlen : l.length = n) (h : ∀ (i : Nat) (st : State), l[i]? = some st → f st = g i) :
    l.map f = (List.range n).map g := by
  apply List.ext_getElem
  · simp [hlen]
  · intro i h1 h2
    simp only [List.getElem_map, List.getElem_range]
    apply h
    rw [List.getElem?_eq_getElem]

/-! ## The table lookups along a run -/

theorem lookupCursor_idle (s : State) (hq : qualifying s = false) : lookupCursor s = none := by
  unfold qualifying at hq
  unfold lookupCursor
  simp only []
  rw [if_neg (by simpa using hq)]

theorem lookupCursor_start (s : State) (h : s.ctc_toggle_cycles_to_refresh_display = 37) :
    lookupCursor s = none := by
  unfold lookupCursor
  simp only [(frequencyToSpeed_display _).1, h]
  simp

theorem lookupCursor_inFrame {ds : Nat × Nat × Nat} {k : Nat} {s : State}
    (h : InFrame ds k s) (hk : k < 37) (hq : qualifying s = true) :
    lookupCursor s = if k < 24 then some (k / 8, k % 8) else none := by
  obtain ⟨h1, -, hc, -, -⟩ := h
  unfold qualifying at hq
  unfold lookupCursor
  simp only []
  rw [if_pos (by simpa using hq)]
  obtain ⟨f1, -, f3, f4, -⟩ := frequencyToSpeed_display { s with PORTB := s.PORTB ^^^ BV PB0 }
  simp only [] at f1 f3 f4
  generalize frequencyToSpeed { s with PORTB := s.PORTB ^^^ BV PB0 } = t at f1 f3 f4 ⊢
  have hc' : (t.current_digit_index, t.current_segment_index) = cursorAt k := by
    rw [f3, f4]; exact hc
  have hmod : (k + 1) % 256 = k + 1 := by omega
  rw [f1, h1, hmod, if_neg (by omega)]
  by_cases h36 : k = 36
  · subst h36
    simp
  · rw [if_neg (by omega)]
    by_cases h24 : k < 24
    · rw [if_pos (by omega), if_pos h24]
      have ha := advanceCursor_at
        { t with ctc_toggle_cycles_to_refresh_display := k + 1,
                 PORTB := t.PORTB &&& notMask (BV PB3) } k h24 hc'
      simp only [] at ha
      rw [ha]
    · rw [if_neg (by omega), if_neg h24]

theorem lookupTrace_inFrame (ds : Nat × Nat × Nat) :
    ∀ (es : List Event) (s : State) (k : Nat), InFrame ds k s →
      k + (qualTrace s es).length ≤ 37 →
      lookupTrace s es = (List.range' k (qualTrace s es).length).filterMap
        (fun i => if i < 24 then some (i / 8, i % 8) else none) := by
  intro es
  induction es with
  | nil => intro s k _ _; simp [qualTrace, lookupTrace]
  | cons e es ih =>
    intro s k h hle
    cases e with
    | edge =>
      simp only [qualTrace, lookupTrace, step] at hle ⊢
      exact ih (INT0_vect s) k (inFrame_edge h) hle
    | tick =>
      cases hq : qualifying s with
      | false =>
        simp only [qualTrace, lookupTrace, step, hq, lookupCursor_idle s hq] at hle ⊢
        exact ih (TIM0_COMPA_vect s) k (inFrame_idle h hq) hle
      | true =>
        simp only [qualTrace, step, hq, if_true, List.length_cons] at hle
        have hk : k < 37 := by omega
        have ih' := ih (TIM0_COMPA_vect s) (k + 1) (inFrame_tick h hk hq) (by omega)
        simp only [qualTrace, lookupTrace, step, hq, if_true, List.length_cons,
          lookupCursor_inFrame h hk hq, List.range'_succ, List.filterMap_cons]
        by_cases h24 : k < 24
        · simp only [if_pos h24]
          rw [ih']
        · simp only [if_neg h24]
          rw [ih']

theorem lookupTrace_cycle :
    ∀ (es : List Event) (s : State), s.ctc_toggle_cycles_to_refresh_display = 37 →
      (qualTrace s es).length ≤ 38 →
      lookupTrace s es = (List.range' 0 ((qualTrace s es).length - 1)).filterMap
        (fun i => if i < 24 then some (i / 8, i % 8) else none) := by
  intro es
  induction es with
  | nil => intro s _ _; simp [qualTrace, lookupTrace]
  | cons e es ih =>
    intro s h37 hle
    cases e with
    | edge =>
      simp only [qualTrace, lookupTrace, step] at hle ⊢
      exact ih (INT0_vect s) (by rw [INT0_vect_refresh, h37]) hle
    | tick =>
      cases hq : qualifying s with
      | false =>
        simp only [qualTrace, lookupTrace, step, hq, lookupCursor_idle s hq] at hle ⊢
        exact ih (TIM0_COMPA_vect s) (by rw [TIM0_COMPA_vect_idle_refresh s hq, h37]) hle
      | true =>
        simp only [qualTrace, step, hq, if_true, List.length_cons] at hle
        simp only [qualTrace, lookupTrace, step, hq, if_true, List.length_cons,
          lookupCursor_start s h37, Nat.add_sub_cancel]
        exact lookupTrace_inFrame _ es (TIM0_COMPA_vect s) 0 (TIM0_COMPA_vect_start s h37 hq)
          (by omega)

/-- The cursor reported by `lookupCursor` is the one the handler leaves in the state. -/
theorem lookupCursor_eq_cursor_after (s : State) (c : Nat × Nat) (h : lookupCursor s = some c) :
    ((TIM0_COMPA_vect s).current_digit_index, (TIM0_COMPA_vect s).current_segment_index) = c := by
  unfold lookupCursor at h
  unfold TIM0_COMPA_vect refreshDisplay
  simp only [] at h ⊢
  split at h
  · rename_i hq
    rw [if_pos hq]
    split at h
    · exact absurd h (by simp)
    · rename_i h38
      rw [if_neg h38]
      split at h
      · exact absurd h (by simp)
      · rename_i h37
        rw [if_neg h37]
        split at h
        · rename_i h25
          rw [if_pos h25]
          simp only [Option.some.injEq] at h
          split
          · exact h
          · exact h
        · exact absurd h (by simp)
  · exact absurd h (by simp)

/-! ## The pulse tally and the speed along a run -/

theorem TIM0_COMPA_vect_rollover (s : State) (h : isRollover s = true) :
    (TIM0_COMPA_vect s).speed = min s.frequency_counter 999 ∧
    (TIM0_COMPA_vect s).frequency_counter = 0 := by
  unfold isRollover at h
  simp only [Bool.and_eq_true, beq_iff_eq] at h
  obtain ⟨hq, hc⟩ := h
  rw [TIM0_COMPA_vect_qualifying s hq]
  obtain ⟨m1, m2, -⟩ :=
    refreshDisplay_measure (frequencyToSpeed { s with PORTB := s.PORTB ^^^ BV PB0 })
  rw [m1, m2]
  unfold frequencyToSpeed
  simp only [hc, if_true]
  by_cases hs : s.frequency_counter > 999
  · simp [hs]; omega
  · simp [hs]; omega

theorem TIM0_COMPA_vect_no_rollover (s : State) (h : isRollover s = false) :
    (TIM0_COMPA_vect s).speed = s.speed ∧
    (TIM0_COMPA_vect s).frequency_counter = s.frequency_counter := by
  cases hq : qualifying s with
  | false => rw [TIM0_COMPA_vect_idle s hq]; exact ⟨rfl, rfl⟩
  | true =>
    unfold isRollover at h
    simp only [hq, Bool.true_and, beq_eq_false_iff_ne, ne_eq] at h
    rw [TIM0_COMPA_vect_qualifying s hq]
    obtain ⟨m1, m2, -⟩ :=
      refreshDisplay_measure (frequencyToSpeed { s with PORTB := s.PORTB ^^^ BV PB0 })
    rw [m1, m2]
    unfold frequencyToSpeed
    simp only [h, if_false, and_self]

theorem run_frequency_counter :
    ∀ (es : List Event) (s : State), s.frequency_counter < 65536 → noRollover s es = true →
      (run s es).frequency_counter = (s.frequency_counter + es.count Event.edge) % 65536 := by
  intro es
  induction es with
  | nil =>
    intro s hs _
    simp [run, Nat.mod_eq_of_lt hs]
  | cons e es ih =>
    intro s hs hno
    cases e with
    | edge =>
      simp only [noRollover, step] at hno
      have hlt : (INT0_vect s).frequency_counter < 65536 := by
        simp only [INT0_vect]; omega
      have hfc : (INT0_vect s).frequency_counter = (s.frequency_counter + 1) % 65536 := by
        simp only [INT0_vect]
      simp only [run, step, List.count_cons_self]
      rw [ih (INT0_vect s) hlt hno, hfc]
      omega
    | tick =>
      simp only [noRollover, step, Bool.and_eq_true, Bool.not_eq_true'] at hno
      obtain ⟨m1, m2⟩ := TIM0_COMPA_vect_no_rollover s hno.1
      simp only [run, step]
      rw [ih (TIM0_COMPA_vect s) (by rw [m2]; exact hs) hno.2, m2]
      simp

theorem step_speed_le (s : State) (e : Event) (h : s.speed ≤ 999) : (step s e).speed ≤ 999 := by
  cases e with
  | edge => simpa [step, INT0_vect] using h
  | tick =>
    simp only [step]
    cases hq : qualifying s with
    | false => rw [TIM0_COMPA_vect_idle s hq]; exact h
    | true =>
      rw [TIM0_COMPA_vect_speed s hq]
      exact frequencyToSpeed_speed_le _ h

theorem run_speed_le : ∀ (es : List Event) (s : State), s.speed ≤ 999 → (run s es).speed ≤ 999 := by
  intro es
  induction es with
  | nil => intro s h; exact h
  | cons e es ih => intro s h; exact ih (step s e) (step_speed_le s e h)

theorem run_qualifying : ∀ (es : List Event) (s : State),
    qualifying (run s es) = (qualifying s ^^ decide (es.count Event.tick % 2 = 1)) := by
  intro es
  induction es with
  | nil => intro s; simp [run]
  | cons e es ih =>
    intro s
    cases e with
    | edge =>
      simp only [run, step]
      rw [ih (INT0_vect s), qualifying_edge]
      simp
    | tick =>
      simp only [run, step, List.count_cons_self]
      rw [ih (TIM0_COMPA_vect s), qualifying_tick]
      cases qualifying s <;> by_cases hc : List.count Event.tick es % 2 = 1 <;> simp [hc] <;> omega

theorem frequencyToSpeed_window_moves (s : State) :
    (frequencyToSpeed s).ctc_toggle_cycles_to_refresh_display_sequence ≠
      s.ctc_toggle_cycles_to_refresh_display_sequence := by
  unfold frequencyToSpeed
  simp only []
  split
  · rename_i h
    split <;> (simp only []; omega)
  · simp only []; omega

theorem refreshDisplay_counter_moves (s : State) :
    (refreshDisplay s).ctc_toggle_cycles_to_refresh_display ≠
      s.ctc_toggle_cycles_to_refresh_display := by
  unfold refreshDisplay advanceCursor
  simp only [updateDisplaySequence_eq]
  split
  · simp only []; omega
  · split
    · simp only []; omega
    · split
      · split <;> split <;> (try split) <;> (simp only []; omega)
      · simp only []; omega

theorem INT0_vect_twice (s : State) :
    INT0_vect (INT0_vect s) =
      { s with frequency_counter := ((s.frequency_counter + 1) % 65536 + 1) % 65536 } := by
  simp [INT0_vect, Nat.xor_assoc]

theorem run_edge_pairs : ∀ (n : Nat) (s : State), s.frequency_counter < 65536 →
    run s (List.replicate (2 * n) Event.edge) =
      { s with frequency_counter := (s.frequency_counter + 2 * n) % 65536 } := by
  intro n
  induction n with
  | zero =>
    intro s hs
    simp [run, Nat.mod_eq_of_lt hs]
  | succ n ih =>
    intro s hs
    have e : 2 * (n + 1) = (2 * n + 1) + 1 := by omega
    rw [e, List.replicate_succ, List.replicate_succ]
    simp only [run, step]
    rw [INT0_vect_twice, ih _ (Nat.mod_lt _ (by decide))]
    simp only [State.mk.injEq, true_and, and_true]
    omega

theorem noRollover_append : ∀ (es fs : List Event) (s : State),
    noRollover s (es ++ fs) = (noRollover s es && noRollover (run s es) fs) := by
  intro es
  induction es with
  | nil => intro fs s; simp [noRollover, run]
  | cons e es ih =>
    intro fs s
    cases e with
    | edge => simp only [List.cons_append, noRollover, run]; exact ih fs _
    | tick =>
      show (!isRollover s && noRollover (step s Event.tick) (es ++ fs)) = _
      rw [ih]
      simp only [noRollover, run, Bool.and_assoc]

theorem noRollover_edges : ∀ (n : Nat) (s : State),
    noRollover s (List.replicate n Event.edge) = true := by
  intro n
  induction n with
  | zero => intro s; rfl
  | succ n ih => intro s; rw [List.replicate_succ]; simp only [noRollover]; exact ih _

/-! ## The two cycle counters -/

theorem refreshDisplay_counter (s : State) :
    (refreshDisplay s).ctc_toggle_cycles_to_refresh_display =
      if (s.ctc_toggle_cycles_to_refresh_display + 1) % 256 = 38 then 0
      else (s.ctc_toggle_cycles_to_refresh_display + 1) % 256 := by
  unfold refreshDisplay advanceCursor
  simp only [updateDisplaySequence_eq]
  split
  · simp
  · split
    · simp
    · split
      · split <;> split <;> (try split) <;> simp
      · simp

theorem refreshDisplay_digits (s : State) :
    (refreshDisplay s).speed_digits =
      if (s.ctc_toggle_cycles_to_refresh_display + 1) % 256 = 38 then
        (s.speed / 100 % 256, s.speed % 100 / 10, s.speed % 10)
      else s.speed_digits := by
  unfold refreshDisplay advanceCursor
  simp only [updateDisplaySequence_eq]
  split
  · simp
  · split
    · simp
    · split
      · split <;> split <;> (try split) <;> simp
      · simp

theorem frequencyToSpeed_window (s : State) :
    (frequencyToSpeed s).ctc_toggle_cycles_to_refresh_display_sequence =
      if (s.ctc_toggle_cycles_to_refresh_display_sequence + 1) % 65536 = 283 then 0
      else (s.ctc_toggle_cycles_to_refresh_display_sequence + 1) % 65536 := by
  unfold frequencyToSpeed
  simp only []
  split
  · split <;> simp
  · simp

theorem TIM0_COMPA_vect_window (s : State) (hq : qualifying s = true)
    (hw : s.ctc_toggle_cycles_to_refresh_display_sequence ≤ 282) :
    (TIM0_COMPA_vect s).ctc_toggle_cycles_to_refresh_display_sequence =
      (s.ctc_toggle_cycles_to_refresh_display_sequence + 1) % 283 := by
  rw [TIM0_COMPA_vect_qualifying s hq, (refreshDisplay_measure _).2.2, frequencyToSpeed_window]
  simp only []
  split <;> omega

theorem TIM0_COMPA_vect_refresh (s : State) (hq : qualifying s = true)
    (hr : s.ctc_toggle_cycles_to_refresh_display ≤ 37) :
    (TIM0_COMPA_vect s).ctc_toggle_cycles_to_refresh_display =
      (s.ctc_toggle_cycles_to_refresh_display + 1) % 38 := by
  rw [TIM0_COMPA_vect_qualifying s hq, refreshDisplay_counter, (frequencyToSpeed_display _).1]
  simp only []
  split <;> omega

theorem TIM0_COMPA_vect_counters (s : State) (hq : qualifying s = true)
    (hw : s.ctc_toggle_cycles_to_refresh_display_sequence ≤ 282)
    (hr : s.ctc_toggle_cycles_to_refresh_display ≤ 37) :
    (TIM0_COMPA_vect s).ctc_toggle_cycles_to_refresh_display_sequence =
      (s.ctc_toggle_cycles_to_refresh_display_sequence + 1) % 283 ∧
    (TIM0_COMPA_vect s).ctc_toggle_cycles_to_refresh_display =
      (s.ctc_toggle_cycles_to_refresh_display + 1) % 38 :=
  ⟨TIM0_COMPA_vect_window s hq hw, TIM0_COMPA_vect_refresh s hq hr⟩

theorem step_counters_idle (s : State) (e : Event) (h : ¬ (e = Event.tick ∧ qualifying s = true)) :
    (step s e).ctc_toggle_cycles_to_refresh_display_sequence =
      s.ctc_toggle_cycles_to_refresh_display_sequence ∧
    (step s e).ctc_toggle_cycles_to_refresh_display =
      s.ctc_toggle_cycles_to_refresh_display := by
  cases e with
  | edge => simp [step, INT0_vect]
  | tick =>
    have hq : qualifying s = false := by
      cases hq : qualifying s with
      | false => rfl
      | true => exact absurd ⟨rfl, hq⟩ h
    simp only [step]
    rw [TIM0_COMPA_vect_idle s hq]
    exact ⟨rfl, rfl⟩

theorem run_counters : ∀ (es : List Event) (s : State),
    s.ctc_toggle_cycles_to_refresh_display_sequence ≤ 282 →
    s.ctc_toggle_cycles_to_refresh_display ≤ 37 →
    (run s es).ctc_toggle_cycles_to_refresh_display_sequence =
      (s.ctc_toggle_cycles_to_refresh_display_sequence + (qualTrace s es).length) % 283 ∧
    (run s es).ctc_toggle_cycles_to_refresh_display =
      (s.ctc_toggle_cycles_to_refresh_display + (qualTrace s es).length) % 38 := by
  intro es
  induction es with
  | nil =>
    intro s hw hr
    simp only [run, qualTrace, List.length_nil, Nat.add_zero]
    omega
  | cons e es ih =>
    intro s hw hr
    cases e with
    | edge =>
      obtain ⟨c1, c2⟩ := step_counters_idle s Event.edge (by simp)
      have h := ih (step s Event.edge) (by rw [c1]; exact hw) (by rw [c2]; exact hr)
      rw [c1, c2] at h
      simpa only [run, qualTrace] using h
    | tick =>
      cases hq : qualifying s with
      | false =>
        obtain ⟨c1, c2⟩ := step_counters_idle s Event.tick (by simp [hq])
        have h := ih (step s Event.tick) (by rw [c1]; exact hw) (by rw [c2]; exact hr)
        rw [c1, c2] at h
        simpa only [run, qualTrace, hq, Bool.false_eq_true, if_false] using h
      | true =>
        obtain ⟨c1, c2⟩ := TIM0_COMPA_vect_counters s hq hw hr
        have h := ih (step s Event.tick) (by simp only [step]; rw [c1]; omega)
          (by simp only [step]; rw [c2]; omega)
        simp only [step] at h
        rw [c1, c2] at h
        simp only [run, qualTrace, hq, if_true, List.length_cons, step]
        constructor
        · rw [h.1]; omega
        · rw [h.2]; omega

/-! ## The phases along a run -/

theorem tickPhase_idle (s : State) (hq : qualifying s = false) : tickPhase s = none := by
  unfold qualifying at hq
  unfold tickPhase
  simp only []
  rw [if_neg (by simpa using hq)]

theorem tickPhase_qualifying (s : State) (hq : qualifying s = true)
    (hr : s.ctc_toggle_cycles_to_refresh_display ≤ 37) :
    tickPhase s = some (phaseAt s.ctc_toggle_cycles_to_refresh_display) := by
  unfold qualifying at hq
  unfold tickPhase phaseAt
  simp only []
  rw [if_pos (by simpa using hq), (frequencyToSpeed_display _).1]
  simp only []
  have hmod : (s.ctc_toggle_cycles_to_refresh_display + 1) % 256 =
      s.ctc_toggle_cycles_to_refresh_display + 1 := by omega
  rw [hmod]
  by_cases h37 : s.ctc_toggle_cycles_to_refresh_display = 37
  · simp [h37]
  · by_cases h36 : s.ctc_toggle_cycles_to_refresh_display = 36
    · simp [h36]
    · by_cases h24 : s.ctc_toggle_cycles_to_refresh_display < 24
      · rw [if_neg (by omega), if_neg (by omega), if_pos (by omega), if_neg h37, if_neg h36,
          if_pos h24]
      · rw [if_neg (by omega), if_neg (by omega), if_neg (by omega), if_neg h37, if_neg h36,
          if_neg h24]

theorem phaseTrace_eq : ∀ (es : List Event) (s : State),
    s.ctc_toggle_cycles_to_refresh_display ≤ 37 →
    phaseTrace s es = (List.range (qualTrace s es).length).map
      (fun i => phaseAt ((s.ctc_toggle_cycles_to_refresh_display + i) % 38)) := by
  intro es
  induction es with
  | nil => intro s _; simp [phaseTrace, qualTrace]
  | cons e es ih =>
    intro s hr
    cases e with
    | edge =>
      obtain ⟨-, c2⟩ := step_counters_idle s Event.edge (by simp)
      have h := ih (step s Event.edge) (by rw [c2]; exact hr)
      rw [c2] at h
      simpa only [phaseTrace, qualTrace] using h
    | tick =>
      cases hq : qualifying s with
      | false =>
        obtain ⟨-, c2⟩ := step_counters_idle s Event.tick (by simp [hq])
        have h := ih (step s Event.tick) (by rw [c2]; exact hr)
        rw [c2] at h
        simpa only [phaseTrace, qualTrace, hq, tickPhase_idle s hq, Bool.false_eq_true,
          if_false] using h
      | true =>
        have c2 := TIM0_COMPA_vect_refresh s hq hr
        have h := ih (step s Event.tick) (by simp only [step]; rw [c2]; omega)
        simp only [step] at h
        rw [c2] at h
        simp only [phaseTrace, qualTrace, hq, if_true, List.length_cons, step,
          tickPhase_qualifying s hq hr, List.range_succ_eq_map, List.map_cons, List.map_map]
        rw [h]
        have e0 : (s.ctc_toggle_cycles_to_refresh_display + 0) % 38 =
            s.ctc_toggle_cycles_to_refresh_display := by omega
        rw [e0]
        congr 1
        apply List.map_congr_left
        intro i _
        simp only [Function.comp]
        congr 1
        omega

/-! ## The digits along a run -/

theorem step_digits (s : State) (e : Event) (h : ¬ (e = Event.tick ∧ isStart s = true)) :
    (step s e).speed_digits = s.speed_digits := by
  cases e with
  | edge => simp [step, INT0_vect]
  | tick =>
    simp only [step]
    cases hq : qualifying s with
    | false => rw [TIM0_COMPA_vect_idle s hq]
    | true =>
      have hns : ¬ (s.ctc_toggle_cycles_to_refresh_display + 1) % 256 = 38 := by
        intro h38
        apply h
        unfold isStart
        simp [hq, h38]
      rw [TIM0_COMPA_vect_qualifying s hq, refreshDisplay_digits,
        (frequencyToSpeed_display _).1, (frequencyToSpeed_display _).2.1]
      simp only []
      rw [if_neg hns]

theorem run_digits : ∀ (es : List Event) (s : State), noStart s es = true →
    (run s es).speed_digits = s.speed_digits := by
  intro es
  induction es with
  | nil => intro s _; rfl
  | cons e es ih =>
    intro s hno
    cases e with
    | edge =>
      simp only [noStart] at hno
      simp only [run]
      rw [ih _ hno, step_digits s Event.edge (by simp)]
    | tick =>
      simp only [noStart, Bool.and_eq_true, Bool.not_eq_true'] at hno
      simp only [run]
      rw [ih _ hno.2, step_digits s Event.tick (by simp [hno.1])]

theorem TIM0_COMPA_vect_start_digits (s : State) (h : isStart s = true) :
    (TIM0_COMPA_vect s).speed_digits =
      ((TIM0_COMPA_vect s).speed / 100 % 256, (TIM0_COMPA_vect s).speed % 100 / 10,
        (TIM0_COMPA_vect s).speed % 10) := by
  unfold isStart at h
  simp only [Bool.and_eq_true, beq_iff_eq] at h
  obtain ⟨hq, h38⟩ := h
  rw [TIM0_COMPA_vect_speed s hq, TIM0_COMPA_vect_qualifying s hq, refreshDisplay_digits,
    (frequencyToSpeed_display _).1]
  simp only []
  rw [if_pos h38]

/-! ## Invariants of the reachable states -/

theorem step_zero_input (s : State)
    (h : s.frequency_counter = 0 ∧ s.speed = 0 ∧ s.speed_digits = (0, 0, 0)) :
    (TIM0_COMPA_vect s).frequency_counter = 0 ∧ (TIM0_COMPA_vect s).speed = 0 ∧
    (TIM0_COMPA_vect s).speed_digits = (0, 0, 0) := by
  obtain ⟨h1, h2, h3⟩ := h
  cases hq : qualifying s with
  | false => rw [TIM0_COMPA_vect_idle s hq]; exact ⟨h1, h2, h3⟩
  | true =>
    have hf : (frequencyToSpeed { s with PORTB := s.PORTB ^^^ BV PB0 }).frequency_counter = 0 ∧
        (frequencyToSpeed { s with PORTB := s.PORTB ^^^ BV PB0 }).speed = 0 := by
      unfold frequencyToSpeed
      simp only [h1, h2]
      split <;> simp
    rw [TIM0_COMPA_vect_qualifying s hq, (refreshDisplay_measure _).1,
      (refreshDisplay_measure _).2.1, refreshDisplay_digits, hf.1, hf.2,
      (frequencyToSpeed_display _).2.1]
    simp only [h3]
    refine ⟨trivial, trivial, ?_⟩
    split <;> rfl

theorem run_zero_input : ∀ (n : Nat) (s : State),
    s.frequency_counter = 0 ∧ s.speed = 0 ∧ s.speed_digits = (0, 0, 0) →
    (run s (List.replicate n Event.tick)).speed = 0 ∧
    (run s (List.replicate n Event.tick)).speed_digits = (0, 0, 0) := by
  intro n
  induction n with
  | zero => intro s h; exact ⟨h.2.1, h.2.2⟩
  | succ n ih =>
    intro s h
    rw [List.replicate_succ]
    exact ih (TIM0_COMPA_vect s) (step_zero_input s h)

theorem refreshDisplay_safe (s : State)
    (h : s.current_digit_index ≤ 2 ∧ s.current_segment_index ≤ 7 ∧ s.speed_digits.1 ≤ 9 ∧
      s.speed_digits.2.1 ≤ 9 ∧ s.speed_digits.2.2 ≤ 9)
    (hv : s.speed ≤ 999) :
    (refreshDisplay s).current_digit_index ≤ 2 ∧ (refreshDisplay s).current_segment_index ≤ 7 ∧
    (refreshDisplay s).speed_digits.1 ≤ 9 ∧ (refreshDisplay s).speed_digits.2.1 ≤ 9 ∧
    (refreshDisplay s).speed_digits.2.2 ≤ 9 := by
  obtain ⟨h1, h2, h3, h4, h5⟩ := h
  unfold refreshDisplay advanceCursor
  simp only [updateDisplaySequence_eq]
  split
  · simp only []
    omega
  · split
    · exact ⟨h1, h2, h3, h4, h5⟩
    · split
      · split <;> split <;> (try split) <;> (simp only []; omega)
      · exact ⟨h1, h2, h3, h4, h5⟩

theorem step_safe (s : State) (e : Event)
    (h : s.current_digit_index ≤ 2 ∧ s.current_segment_index ≤ 7 ∧ s.speed_digits.1 ≤ 9 ∧
      s.speed_digits.2.1 ≤ 9 ∧ s.speed_digits.2.2 ≤ 9)
    (hv : s.speed ≤ 999) :
    (step s e).current_digit_index ≤ 2 ∧ (step s e).current_segment_index ≤ 7 ∧
    (step s e).speed_digits.1 ≤ 9 ∧ (step s e).speed_digits.2.1 ≤ 9 ∧
    (step s e).speed_digits.2.2 ≤ 9 := by
  cases e with
  | edge => simpa [step, INT0_vect] using h
  | tick =>
    simp only [step]
    cases hq : qualifying s with
    | false => rw [TIM0_COMPA_vect_idle s hq]; exact h
    | true =>
      rw [TIM0_COMPA_vect_qualifying s hq]
      apply refreshDisplay_safe
      · obtain ⟨-, f2, f3, f4, -⟩ :=
          frequencyToSpeed_display { s with PORTB := s.PORTB ^^^ BV PB0 }
        rw [f2, f3, f4]
        exact h
      · exact frequencyToSpeed_speed_le _ hv

theorem run_safe : ∀ (es : List Event) (s : State),
    (s.current_digit_index ≤ 2 ∧ s.current_segment_index ≤ 7 ∧ s.speed_digits.1 ≤ 9 ∧
      s.speed_digits.2.1 ≤ 9 ∧ s.speed_digits.2.2 ≤ 9) → s.speed ≤ 999 →
    (run s es).current_digit_index ≤ 2 ∧ (run s es).current_segment_index ≤ 7 ∧
    (run s es).speed_digits.1 ≤ 9 ∧ (run s es).speed_digits.2.1 ≤ 9 ∧
    (run s es).speed_digits.2.2 ≤ 9 := by
  intro es
  induction es with
  | nil => intro s h _; exact h
  | cons e es ih => intro s h hv; exact ih (step s e) (step_safe s e h hv) (step_speed_le s e hv)

theorem readDigit_le (ds : Nat × Nat × Nat) (i : Nat)
    (h : ds.1 ≤ 9 ∧ ds.2.1 ≤ 9 ∧ ds.2.2 ≤ 9) : readDigit ds i ≤ 9 := by
  unfold readDigit
  split
  · exact h.1
  · exact h.2.1
  · exact h.2.2
  · omega

theorem pinHigh_PB0_tick (s : State) :
    pinHigh (TIM0_COMPA_vect s) PB0 = !pinHigh s PB0 := by
  have h := qualifying_tick s
  rw [qualifying_eq, qualifying_eq] at h
  rw [pinHigh_eq_testBit, pinHigh_eq_testBit]
  exact h

theorem run_tick_last (s : State) (es : List Event) :
    TIM0_COMPA_vect (run s es) = run s (es ++ [Event.tick]) := by
  rw [run_append]
  rfl

/-! ## How the firmware reaches the concrete scenarios -/

theorem beforeFirstStart_reachable :
    run powerOn (List.replicate 74 Event.tick) = beforeFirstStart := by
  decide!

theorem beforeRollover_reachable :
    run powerOn (List.replicate 305 Event.edge ++ List.replicate 564 Event.tick) =
      beforeRollover := by
  have h : run powerOn (List.replicate 305 Event.edge) =
      { powerOn with frequency_counter := 305, PORTB := 20 } := by decide!
  rw [run_append, h]
  decide!

theorem afterRollover_reachable :
    run beforeRollover [Event.tick, Event.tick] = afterRollover := by
  decide

theorem burstState_reachable :
    run afterRollover (List.replicate 40 Event.tick) = burstState := by
  decide!

theorem midWindowState_reachable :
    run afterRollover ([Event.edge, Event.edge] ++ List.replicate 9 Event.tick) =
      midWindowState := by
  decide!

theorem qualTrace_length_ticks : ∀ (n : Nat) (s : State),
    (qualTrace s (List.replicate n Event.tick)).length =
      (n + (if qualifying s = true then 1 else 0)) / 2 := by
  intro n
  induction n with
  | zero => intro s; cases qualifying s <;> simp [qualTrace]
  | succ n ih =>
    intro s
    rw [List.replicate_succ]
    cases hq : qualifying s with
    | false =>
      have hq' : qualifying (step s Event.tick) = true := by
        simp only [step]; rw [qualifying_tick, hq]; rfl
      simp only [qualTrace, hq, Bool.false_eq_true, if_false]
      rw [ih, hq']
      simp
    | true =>
      have hq' : qualifying (step s Event.tick) = false := by
        simp only [step]; rw [qualifying_tick, hq]; rfl
      simp only [qualTrace, hq, if_true, List.length_cons]
      rw [ih, hq']
      simp only [Bool.false_eq_true, if_false]
      omega

/-- From power-on, the tick after 21507 ticks, which is the 10754th qualifying tick, is
both a window rollover and a START tick. -/
theorem coinciding_tick_reachable :
    isRollover (run powerOn (List.replicate 21507 Event.tick)) = true ∧
    isStart (run powerOn (List.replicate 21507 Event.tick)) = true := by
  obtain ⟨h1, h2⟩ := run_counters (List.replicate 21507 Event.tick) powerOn (by decide) (by decide)
  have hq : qualifying (run powerOn (List.replicate 21507 Event.tick)) = true := by
    rw [run_qualifying, List.count_replicate_self]
    decide
  have hlen := qualTrace_length_ticks 21507 powerOn
  have hq0 : qualifying powerOn = false := by decide
  rw [hq0] at hlen
  rw [hlen] at h1 h2
  unfold isRollover isStart
  rw [hq, h1, h2]
  decide

/-! ## The claims -/

/-- Claim C1: a call of `frequencyToSpeed` that is a window rollover (window counter
282 before the call) leaves `speed = min N 999` for the tally `N`, the tally 0 and
the window counter 0. -/
theorem frequencyToSpeed_capture (s : State)
    (h : s.ctc_toggle_cycles_to_refresh_display_sequence = 282) :
    (frequencyToSpeed s).speed = min s.frequency_counter 999 ∧
    (frequencyToSpeed s).frequency_counter = 0 ∧
    (frequencyToSpeed s).ctc_toggle_cycles_to_refresh_display_sequence = 0 := by
  unfold frequencyToSpeed
  simp only [h]
  by_cases hs : s.frequency_counter > 999
  · simp [hs]; omega
  · simp [hs]; omega

theorem frequencyToSpeed_capture_witness :
    beforeRollover.ctc_toggle_cycles_to_refresh_display_sequence = 282 ∧
    ((frequencyToSpeed beforeRollover).speed = min beforeRollover.frequency_counter 999 ∧
     (frequencyToSpeed beforeRollover).frequency_counter = 0 ∧
     (frequencyToSpeed beforeRollover).ctc_toggle_cycles_to_refresh_display_sequence = 0) :=
  ⟨by decide, frequencyToSpeed_capture beforeRollover (by decide)⟩

/-- Claim C2: for a speed of at most 999, `updateDisplaySequence` leaves three digits,
each at most 9, with `d0 * 100 + d1 * 10 + d2` equal to the speed; speed 7 gives
(0, 0, 7) and speed 999 gives (9, 9, 9). -/
theorem updateDisplaySequence_decomposes (s : State) (h : s.speed ≤ 999) :
    (updateDisplaySequence s).speed_digits.1 ≤ 9 ∧
    (updateDisplaySequence s).speed_digits.2.1 ≤ 9 ∧
    (updateDisplaySequence s).speed_digits.2.2 ≤ 9 ∧
    (updateDisplaySequence s).speed_digits.1 * 100 +
      (updateDisplaySequence s).speed_digits.2.1 * 10 +
      (updateDisplaySequence s).speed_digits.2.2 = s.speed ∧
    (s.speed = 7 → (updateDisplaySequence s).speed_digits = (0, 0, 7)) ∧
    (s.speed = 999 → (updateDisplaySequence s).speed_digits = (9, 9, 9)) := by
  rw [updateDisplaySequence_eq]
  simp only []
  refine ⟨by omega, by omega, by omega, by omega, ?_, ?_⟩
  · intro h7; rw [h7]
  · intro h9; rw [h9]

theorem updateDisplaySequence_decomposes_witness :
    saturatedState.speed ≤ 999 ∧
    ((updateDisplaySequence saturatedState).speed_digits.1 ≤ 9 ∧
     (updateDisplaySequence saturatedState).speed_digits.2.1 ≤ 9 ∧
     (updateDisplaySequence saturatedState).speed_digits.2.2 ≤ 9 ∧
     (updateDisplaySequence saturatedState).speed_digits.1 * 100 +
       (updateDisplaySequence saturatedState).speed_digits.2.1 * 10 +
       (updateDisplaySequence saturatedState).speed_digits.2.2 = saturatedState.speed ∧
     (saturatedState.speed = 7 → (updateDisplaySequence saturatedState).speed_digits = (0, 0, 7)) ∧
     (saturatedState.speed = 999 → (updateDisplaySequence saturatedState).speed_digits = (9, 9, 9))) :=
  ⟨by decide, updateDisplaySequence_decomposes saturatedState (by decide)⟩

/-- Claim C3: with the speed `v ≤ 999` held at a START tick, `PB3` after the `k`-th
qualifying tick that follows (`k` from 1 to 24) is bit `(k - 1) % 8` of the segment
pattern of the hundreds digit of `v` for `k ≤ 8`, of the tens digit for `k ≤ 16`, of
the ones digit otherwise, whatever events the run contains. -/
theorem frame_content (s : State) (es : List Event) (st0 st : State) (k : Nat)
    (hstart : s.ctc_toggle_cycles_to_refresh_display = 37)
    (h0 : (qualTrace s es)[0]? = some st0)
    (hv : st0.speed ≤ 999)
    (hk1 : 1 ≤ k) (hk24 : k ≤ 24)
    (hk : (qualTrace s es)[k]? = some st) :
    pinHigh st PB3 =
      (segmentsOf (if k ≤ 8 then st0.speed / 100
        else if k ≤ 16 then st0.speed / 10 % 10 else st0.speed % 10)).testBit ((k - 1) % 8) := by
  have h := (qualTrace_cycle es s hstart st0 h0 k st hk (by omega)).2.2.2.2
  rw [h, decimalDigits_eq _ hv]
  unfold dataPin decimalDigits
  rw [if_neg (by omega), if_pos hk24]
  by_cases h8 : k ≤ 8
  · have e : (k - 1) / 8 = 0 := by omega
    rw [if_pos h8, e]
    rfl
  · rw [if_neg h8]
    by_cases h16 : k ≤ 16
    · have e : (k - 1) / 8 = 1 := by omega
      rw [if_pos h16, e]
      rfl
    · have e : (k - 1) / 8 = 2 := by omega
      rw [if_neg h16, e]
      rfl

set_option maxRecDepth 100000 in
theorem frame_content_witness :
    burstState.ctc_toggle_cycles_to_refresh_display = 37 ∧
    (qualTrace burstState fullCycle)[0]? = some (run burstState (List.replicate 2 Event.tick)) ∧
    (run burstState (List.replicate 2 Event.tick)).speed ≤ 999 ∧
    (qualTrace burstState fullCycle)[17]? =
      some (run burstState (List.replicate 36 Event.tick)) ∧
    pinHigh (run burstState (List.replicate 36 Event.tick)) PB3 =
      (segmentsOf (if 17 ≤ 8 then (run burstState (List.replicate 2 Event.tick)).speed / 100
        else if 17 ≤ 16 then (run burstState (List.replicate 2 Event.tick)).speed / 10 % 10
        else (run burstState (List.replicate 2 Event.tick)).speed % 10)).testBit ((17 - 1) % 8) :=
  ⟨by decide, by decide, by decide, by decide,
   frame_content burstState fullCycle _ _ 17 (by decide) (by decide) (by decide)
     (by decide) (by decide) (by decide)⟩

/-- Claim C4: over a refresh cycle of 38 qualifying ticks that begins with a START tick,
the cursors used for the table lookups are the 24 pairs of {0,1,2} x {0..7}, each once,
digit 0 with segments 0..7 first, then digit 1, then digit 2. -/
theorem cursor_traversal (s : State) (es : List Event)
    (hstart : s.ctc_toggle_cycles_to_refresh_display = 37)
    (hlen : (qualTrace s es).length = 38) :
    lookupTrace s es = List.product [0, 1, 2] (List.range 8) := by
  rw [lookupTrace_cycle es s hstart (by omega), hlen]
  decide

set_option maxRecDepth 100000 in
theorem cursor_traversal_witness :
    burstState.ctc_toggle_cycles_to_refresh_display = 37 ∧
    (qualTrace burstState fullCycle).length = 38 ∧
    lookupTrace burstState fullCycle = List.product [0, 1, 2] (List.range 8) :=
  ⟨by decide, by decide, cursor_traversal burstState fullCycle (by decide) (by decide)⟩

/-- Claim C5, as the code has it: on the 24 segment ticks of a refresh cycle `PB3`
carries one bit per tick, hundreds digit first, then tens, then ones, and within the
8 ticks of a digit bit 0 of its segment pattern first and bit 7 last (segment index
0 up to 7). -/
theorem wire_bit_order (s : State) (es : List Event) (st0 : State)
    (hstart : s.ctc_toggle_cycles_to_refresh_display = 37)
    (h0 : (qualTrace s es)[0]? = some st0)
    (hv : st0.speed ≤ 999)
    (hlen : 25 ≤ (qualTrace s es).length) :
    (((qualTrace s es).drop 1).take 24).map (fun st => pinHigh st PB3) =
      [st0.speed / 100, st0.speed / 10 % 10, st0.speed % 10].flatMap
        (fun d => (List.range 8).map (fun b => (segmentsOf d).testBit b)) := by
  have hl : (((qualTrace s es).drop 1).take 24).length = 24 := by
    rw [List.length_take, List.length_drop]; omega
  rw [map_eq_of_pointwise _ _
    (fun i => (segmentsOf (readDigit (decimalDigits st0.speed) (i / 8))).testBit (i % 8)) 24 hl]
  · rfl
  · intro i st hi
    have hi24 : i < 24 := by
      have := (List.getElem?_eq_some.mp hi).1
      omega
    rw [List.getElem?_take_of_lt hi24, List.getElem?_drop] at hi
    have h := (qualTrace_cycle es s hstart st0 h0 (1 + i) st hi (by omega)).2.2.2.2
    rw [h, decimalDigits_eq _ hv]
    unfold dataPin
    rw [if_neg (by omega), if_pos (by omega)]
    have e : 1 + i - 1 = i := by omega
    rw [e]

set_option maxRecDepth 100000 in
theorem wire_bit_order_witness :
    burstState.ctc_toggle_cycles_to_refresh_display = 37 ∧
    (qualTrace burstState fullCycle)[0]? = some (run burstState (List.replicate 2 Event.tick)) ∧
    (run burstState (List.replicate 2 Event.tick)).speed ≤ 999 ∧
    25 ≤ (qualTrace burstState fullCycle).length ∧
    (((qualTrace burstState fullCycle).drop 1).take 24).map (fun st => pinHigh st PB3) =
      [(run burstState (List.replicate 2 Event.tick)).speed / 100,
       (run burstState (List.replicate 2 Event.tick)).speed / 10 % 10,
       (run burstState (List.replicate 2 Event.tick)).speed % 10].flatMap
        (fun d => (List.range 8).map (fun b => (segmentsOf d).testBit b)) :=
  ⟨by decide, by decide, by decide, by decide,
   wire_bit_order burstState fullCycle _ (by decide) (by decide) (by decide) (by decide)⟩

set_option maxRecDepth 100000 in
/-- Claim C5 as stated fails: in the first refresh cycle after power-on, which starts
after 74 ticks, the speed is 0 and the bits on `PB3` over the 24 segment ticks are not
the three patterns of the digit 0 sent bit 7 first. -/
theorem wire_bit_order_not_msb_first :
    run powerOn (List.replicate 74 Event.tick) = beforeFirstStart ∧
    beforeFirstStart.ctc_toggle_cycles_to_refresh_display = 37 ∧
    (qualTrace beforeFirstStart fullCycle)[0]? = some (run beforeFirstStart (List.replicate 2 Event.tick)) ∧
    (run beforeFirstStart (List.replicate 2 Event.tick)).speed = 0 ∧
    (((qualTrace beforeFirstStart fullCycle).drop 1).take 8).map (fun st => pinHigh st PB3) =
      [true, true, true, true, true, true, false, false] ∧
    (List.range 8).map (fun b => (segmentsOf 0).testBit (7 - b)) =
      [false, false, true, true, true, true, true, true] ∧
    (((qualTrace beforeFirstStart fullCycle).drop 1).take 24).map (fun st => pinHigh st PB3) ≠
      [0 / 100, 0 / 10 % 10, 0 % 10].flatMap
        (fun d => (List.range 8).map (fun b => (segmentsOf d).testBit (7 - b))) := by
  refine ⟨beforeFirstStart_reachable, ?_⟩
  decide

/-- Claim C6: in a refresh cycle of 38 qualifying ticks the data-enable pin `PB2`
(active low) is low after each of the first 37 qualifying ticks, START included, and
high after the last one, the END tick. -/
theorem data_enable_framing (s : State) (es : List Event)
    (hstart : s.ctc_toggle_cycles_to_refresh_display = 37)
    (hlen : (qualTrace s es).length = 38) :
    (qualTrace s es).map (fun st => pinHigh st PB2) = List.replicate 37 false ++ [true] := by
  rw [map_eq_of_pointwise _ _ (fun i => decide (i = 37)) 38 hlen]
  · decide
  · intro i st hi
    have hi38 : i < 38 := by
      have := (List.getElem?_eq_some.mp hi).1
      omega
    obtain ⟨st0, h0⟩ := qualTrace_head_of_getElem? s es i st hi
    exact (qualTrace_cycle es s hstart st0 h0 i st hi (by omega)).2.2.2.1

set_option maxRecDepth 100000 in
theorem data_enable_framing_witness :
    burstState.ctc_toggle_cycles_to_refresh_display = 37 ∧
    (qualTrace burstState fullCycle).length = 38 ∧
    (qualTrace burstState fullCycle).map (fun st => pinHigh st PB2) =
      List.replicate 37 false ++ [true] :=
  ⟨by decide, by decide, data_enable_framing burstState fullCycle (by decide) (by decide)⟩

/-- Claim C8, as the code has it: from a state with tally 0, as right after a window
rollover, a run with `K < 65536` edge events and with timer ticks none of which is a
rollover, in any interleaving, leaves `frequency_counter = K` in the state right before
the next rollover, and the rollover tick then leaves `speed = min K 999`. -/
theorem burst_counting (K : Nat) (s : State) (es : List Event)
    (h0 : s.frequency_counter = 0)
    (hK : es.count Event.edge = K)
    (hlt : K < 65536)
    (hno : noRollover s es = true)
    (hroll : isRollover (run s es) = true) :
    (run s es).frequency_counter = K ∧
    (TIM0_COMPA_vect (run s es)).speed = min K 999 := by
  have hfc : (run s es).frequency_counter = K := by
    rw [run_frequency_counter es s (by omega) hno, h0, hK, Nat.zero_add, Nat.mod_eq_of_lt hlt]
  refine ⟨hfc, ?_⟩
  rw [(TIM0_COMPA_vect_rollover _ hroll).1, hfc]

theorem burst_counting_witness :
    afterRollover.frequency_counter = 0 ∧
    windowWithThreeEdges.count Event.edge = 3 ∧
    3 < 65536 ∧
    noRollover afterRollover windowWithThreeEdges = true ∧
    isRollover (run afterRollover windowWithThreeEdges) = true ∧
    ((run afterRollover windowWithThreeEdges).frequency_counter = 3 ∧
     (TIM0_COMPA_vect (run afterRollover windowWithThreeEdges)).speed = min 3 999) :=
  ⟨by decide!, by decide!, by decide, by decide!, by decide!,
   burst_counting 3 afterRollover windowWithThreeEdges (by decide!) (by decide!) (by decide)
     (by decide!) (by decide!)⟩

/-- Claim C8 as stated fails for `K = 65536`: right after the first rollover, which the
firmware reaches from power-on, the tally is 0; 65536 edges followed by the 565 ticks
before the next rollover leave the 16-bit tally at 0, not 65536, and the rollover tick
leaves speed 0, not 999. -/
theorem burst_counting_wraps :
    run powerOn (List.replicate 305 Event.edge ++ List.replicate 564 Event.tick) =
      beforeRollover ∧
    isRollover (run beforeRollover [Event.tick]) = true ∧
    run beforeRollover [Event.tick, Event.tick] = afterRollover ∧
    afterRollover.frequency_counter = 0 ∧
    overflowBurst.count Event.edge = 65536 ∧
    noRollover afterRollover overflowBurst = true ∧
    isRollover (run afterRollover overflowBurst) = true ∧
    (run afterRollover overflowBurst).frequency_counter = 0 ∧
    (TIM0_COMPA_vect (run afterRollover overflowBurst)).speed = 0 ∧
    min 65536 999 = 999 := by
  have e : run afterRollover (List.replicate 65536 Event.edge) =
      { afterRollover with frequency_counter := 0 } :=
    run_edge_pairs 32768 afterRollover (by decide)
  refine ⟨beforeRollover_reachable, by decide, afterRollover_reachable, by decide, ?_⟩
  unfold overflowBurst
  rw [run_append, noRollover_append, noRollover_edges, e]
  refine ⟨?_, by decide!, by decide!, by decide!, by decide!, by decide⟩
  rw [List.count_append, List.count_replicate, List.count_replicate]
  decide

/-- Claim C9: in every state reached from power-on by any sequence of edge events and
timer ticks, `speed ≤ 999`. -/
theorem speed_saturated (es : List Event) : (run powerOn es).speed ≤ 999 :=
  run_speed_le es powerOn (by decide)

/-- Claim C10: a timer tick flips `PB0`; it leaves `PB0` high exactly when it changes
nothing but `PB0`, and otherwise it is the rate window followed by the display part,
run on the state with `PB0` flipped, and both cycle counters move.  From power-on the
next tick is such a qualifying one exactly when an odd number of ticks has been
handled, that is on the 2nd, 4th, 6th, ... tick. -/
theorem tick_gating (s : State) (es : List Event) :
    pinHigh (TIM0_COMPA_vect s) PB0 = !pinHigh s PB0 ∧
    TIM0_COMPA_vect s =
      (if pinHigh (TIM0_COMPA_vect s) PB0 then { s with PORTB := s.PORTB ^^^ BV PB0 }
       else refreshDisplay (frequencyToSpeed { s with PORTB := s.PORTB ^^^ BV PB0 })) ∧
    (∀ n : Nat, n ≠ PB0 → (s.PORTB ^^^ BV PB0).testBit n = s.PORTB.testBit n) ∧
    ((TIM0_COMPA_vect s).ctc_toggle_cycles_to_refresh_display_sequence ≠
        s.ctc_toggle_cycles_to_refresh_display_sequence ↔
      pinHigh (TIM0_COMPA_vect s) PB0 = false) ∧
    ((TIM0_COMPA_vect s).ctc_toggle_cycles_to_refresh_display ≠
        s.ctc_toggle_cycles_to_refresh_display ↔
      pinHigh (TIM0_COMPA_vect s) PB0 = false) ∧
    pinHigh powerOn PB0 = false ∧
    qualifying (run powerOn es) = decide (es.count Event.tick % 2 = 1) := by
  have hflip : pinHigh (TIM0_COMPA_vect s) PB0 = !pinHigh s PB0 := by
    have h := qualifying_tick s
    rw [qualifying_eq, qualifying_eq] at h
    rw [pinHigh_eq_testBit, pinHigh_eq_testBit]
    exact h
  have hq : qualifying s = pinHigh s PB0 := by
    rw [qualifying_eq, pinHigh_eq_testBit]
  refine ⟨hflip, ?_, ?_, ?_, ?_, by decide, ?_⟩
  · rw [hflip, ← hq]
    cases h : qualifying s with
    | false => simp [TIM0_COMPA_vect_idle s h]
    | true => simp [TIM0_COMPA_vect_qualifying s h]
  · intro n hn
    rw [Nat.testBit_xor, BV_testBit]
    have : ¬ PB0 = n := fun e => hn e.symm
    simp [this]
  · rw [hflip, ← hq]
    cases h : qualifying s with
    | false => simp [TIM0_COMPA_vect_idle s h]
    | true =>
      rw [TIM0_COMPA_vect_qualifying s h, (refreshDisplay_measure _).2.2]
      have := frequencyToSpeed_window_moves { s with PORTB := s.PORTB ^^^ BV PB0 }
      simpa using this
  · rw [hflip, ← hq]
    cases h : qualifying s with
    | false => simp [TIM0_COMPA_vect_idle s h]
    | true =>
      rw [TIM0_COMPA_vect_qualifying s h]
      have h1 := refreshDisplay_counter_moves
        (frequencyToSpeed { s with PORTB := s.PORTB ^^^ BV PB0 })
      rw [(frequencyToSpeed_display _).1] at h1
      simpa using h1
  · rw [run_qualifying]
    have : qualifying powerOn = false := by decide
    rw [this]
    simp

/-- Claim C11: `speed_digits` is written only in a START tick: the edge handler and
every timer tick that is not a START tick leave it unchanged.  So from the START tick
of a refresh cycle reached from power-on until the next START tick, whatever happens to
`speed`, the digits stay those of that START tick and `d0 * 100 + d1 * 10 + d2` equals
the value `speed` had at that START. -/
theorem digit_snapshot (pre es : List Event)
    (hstart : isStart (run powerOn pre) = true)
    (hno : noStart (TIM0_COMPA_vect (run powerOn pre)) es = true) :
    (∀ s : State, (INT0_vect s).speed_digits = s.speed_digits) ∧
    (∀ s : State, isStart s = false → (TIM0_COMPA_vect s).speed_digits = s.speed_digits) ∧
    (run (TIM0_COMPA_vect (run powerOn pre)) es).speed_digits =
      (TIM0_COMPA_vect (run powerOn pre)).speed_digits ∧
    (run (TIM0_COMPA_vect (run powerOn pre)) es).speed_digits.1 * 100 +
      (run (TIM0_COMPA_vect (run powerOn pre)) es).speed_digits.2.1 * 10 +
      (run (TIM0_COMPA_vect (run powerOn pre)) es).speed_digits.2.2 =
        (TIM0_COMPA_vect (run powerOn pre)).speed := by
  have hkeep := run_digits es _ hno
  have hv : (TIM0_COMPA_vect (run powerOn pre)).speed ≤ 999 := by
    rw [run_tick_last]
    exact run_speed_le _ powerOn (by decide)
  refine ⟨?_, ?_, hkeep, ?_⟩
  · intro s
    exact step_digits s Event.edge (by simp)
  · intro s hs
    exact step_digits s Event.tick (by simp [hs])
  · rw [hkeep, TIM0_COMPA_vect_start_digits _ hstart]
    simp only []
    omega

theorem digit_snapshot_witness :
    isStart (run powerOn lateCyclePrefix) = true ∧
    noStart (TIM0_COMPA_vect (run powerOn lateCyclePrefix)) lateCycleEvents = true ∧
    (TIM0_COMPA_vect (run powerOn lateCyclePrefix)).speed = 0 ∧
    (run (TIM0_COMPA_vect (run powerOn lateCyclePrefix)) lateCycleEvents).speed = 5 ∧
    ((∀ s : State, (INT0_vect s).speed_digits = s.speed_digits) ∧
     (∀ s : State, isStart s = false → (TIM0_COMPA_vect s).speed_digits = s.speed_digits) ∧
     (run (TIM0_COMPA_vect (run powerOn lateCyclePrefix)) lateCycleEvents).speed_digits =
       (TIM0_COMPA_vect (run powerOn lateCyclePrefix)).speed_digits ∧
     (run (TIM0_COMPA_vect (run powerOn lateCyclePrefix)) lateCycleEvents).speed_digits.1 * 100 +
       (run (TIM0_COMPA_vect (run powerOn lateCyclePrefix)) lateCycleEvents).speed_digits.2.1 * 10 +
       (run (TIM0_COMPA_vect (run powerOn lateCyclePrefix)) lateCycleEvents).speed_digits.2.2 =
         (TIM0_COMPA_vect (run powerOn lateCyclePrefix)).speed) :=
  ⟨by decide!, by decide!, by decide!, by decide!,
   digit_snapshot lateCyclePrefix lateCycleEvents (by decide!) (by decide!)⟩

/-- Claim C12: a timer tick that is not a window rollover, because it leaves `PB0` high
or because the window counter is below 282 before it, leaves `speed` and
`frequency_counter` unchanged; and the display part of the handler writes neither, in
any state. -/
theorem speed_only_at_rollover (s : State)
    (h : pinHigh (TIM0_COMPA_vect s) PB0 = true ∨
      s.ctc_toggle_cycles_to_refresh_display_sequence < 282) :
    (TIM0_COMPA_vect s).speed = s.speed ∧
    (TIM0_COMPA_vect s).frequency_counter = s.frequency_counter ∧
    (∀ t : State, (refreshDisplay t).speed = t.speed ∧
      (refreshDisplay t).frequency_counter = t.frequency_counter) := by
  have hno : isRollover s = false := by
    unfold isRollover
    rcases h with h | h
    · rw [pinHigh_PB0_tick, pinHigh_eq_testBit, ← qualifying_eq] at h
      cases hq : qualifying s with
      | false => rfl
      | true => rw [hq] at h; exact absurd h (by decide)
    · have : ¬ (s.ctc_toggle_cycles_to_refresh_display_sequence + 1) % 65536 = 283 := by omega
      simp [this]
  obtain ⟨h1, h2⟩ := TIM0_COMPA_vect_no_rollover s hno
  exact ⟨h1, h2, fun t => ⟨(refreshDisplay_measure t).1, (refreshDisplay_measure t).2.1⟩⟩

theorem speed_only_at_rollover_witness :
    (pinHigh (TIM0_COMPA_vect midWindowState) PB0 = true ∨
      midWindowState.ctc_toggle_cycles_to_refresh_display_sequence < 282) ∧
    qualifying midWindowState = true ∧
    ((TIM0_COMPA_vect midWindowState).speed = midWindowState.speed ∧
     (TIM0_COMPA_vect midWindowState).frequency_counter = midWindowState.frequency_counter ∧
     (∀ t : State, (refreshDisplay t).speed = t.speed ∧
       (refreshDisplay t).frequency_counter = t.frequency_counter)) :=
  ⟨Or.inr (by decide), by decide,
   speed_only_at_rollover midWindowState (Or.inr (by decide))⟩

/-- Claim C13, as the code has it: a refresh cycle of 38 qualifying ticks that begins
with a START tick is made up of the START tick, the 3 x 8 = 24 SEGMENT ticks, 12
trailing ticks in which the handler only drives `PB3` low, and the END tick, in this
order. -/
theorem cycle_composition (s : State) (es : List Event)
    (hstart : s.ctc_toggle_cycles_to_refresh_display = 37)
    (hlen : (qualTrace s es).length = 38) :
    phaseTrace s es =
      [Phase.start] ++ List.replicate 24 Phase.segment ++ List.replicate 12 Phase.trailing ++
        [Phase.frameEnd] := by
  rw [phaseTrace_eq es s (by omega), hlen, hstart]
  decide

set_option maxRecDepth 100000 in
theorem cycle_composition_witness :
    burstState.ctc_toggle_cycles_to_refresh_display = 37 ∧
    (qualTrace burstState fullCycle).length = 38 ∧
    phaseTrace burstState fullCycle =
      [Phase.start] ++ List.replicate 24 Phase.segment ++ List.replicate 12 Phase.trailing ++
        [Phase.frameEnd] :=
  ⟨by decide, by decide, cycle_composition burstState fullCycle (by decide) (by decide)⟩

set_option maxRecDepth 100000 in
/-- Claim C13 as stated fails: in the first refresh cycle after power-on, which starts
after 74 ticks, the 26th qualifying tick (after 51 more ticks) is neither START nor a
SEGMENT tick nor END: it
takes the branch that only drives `PB3` low, does no table lookup, leaves the cursor
alone and leaves the refresh counter at 25. -/
theorem cycle_has_trailing_ticks :
    run powerOn (List.replicate 74 Event.tick) = beforeFirstStart ∧
    beforeFirstStart.ctc_toggle_cycles_to_refresh_display = 37 ∧
    (qualTrace beforeFirstStart (List.replicate 51 Event.tick)).length = 25 ∧
    qualifying (run beforeFirstStart (List.replicate 51 Event.tick)) = true ∧
    tickPhase (run beforeFirstStart (List.replicate 51 Event.tick)) ≠ some Phase.start ∧
    tickPhase (run beforeFirstStart (List.replicate 51 Event.tick)) ≠ some Phase.segment ∧
    tickPhase (run beforeFirstStart (List.replicate 51 Event.tick)) ≠ some Phase.frameEnd ∧
    lookupCursor (run beforeFirstStart (List.replicate 51 Event.tick)) = none ∧
    (run beforeFirstStart (List.replicate 52 Event.tick)).ctc_toggle_cycles_to_refresh_display = 25 ∧
    (run beforeFirstStart (List.replicate 52 Event.tick)).current_segment_index =
      (run beforeFirstStart (List.replicate 51 Event.tick)).current_segment_index ∧
    (run beforeFirstStart (List.replicate 52 Event.tick)).current_digit_index =
      (run beforeFirstStart (List.replicate 51 Event.tick)).current_digit_index ∧
    1 + 3 * 8 + 1 ≠ 38 := by
  refine ⟨beforeFirstStart_reachable, ?_⟩
  decide

/-- Claim C14: from power-on, as long as no edge event occurs, `speed` is 0 and
`speed_digits` is (0, 0, 0) after every timer tick, however many measurement windows
the ticks span. -/
theorem zero_input (n : Nat) :
    (run powerOn (List.replicate n Event.tick)).speed = 0 ∧
    (run powerOn (List.replicate n Event.tick)).speed_digits = (0, 0, 0) :=
  run_zero_input n powerOn (by decide)

/-- Claim C16, evaluated on the code.  The ranges and the periods hold: in every state
reached from power-on the window counter is at most 282 and the refresh counter at most
37, after `q` qualifying ticks they are `q % 283` and `q % 38`, and the next qualifying
tick is a window rollover exactly when `q + 1` is a multiple of 283 and a START tick
exactly when `q + 1` is a multiple of 38.  The first occurrence does not: both
counters are 0 at `main`, not 282 and 37, so the first qualifying tick is neither a
rollover nor a START, and the two first fall on the 283rd and the 38th qualifying tick.
From the state that `.init1` and `.init3` set up, both would fall on the first
qualifying tick and on every 283rd and 38th after it. -/
theorem counter_ranges_and_periods (es : List Event) :
    (run powerOn es).ctc_toggle_cycles_to_refresh_display_sequence ≤ 282 ∧
    (run powerOn es).ctc_toggle_cycles_to_refresh_display ≤ 37 ∧
    (run powerOn es).ctc_toggle_cycles_to_refresh_display_sequence =
      (qualTrace powerOn es).length % 283 ∧
    (run powerOn es).ctc_toggle_cycles_to_refresh_display =
      (qualTrace powerOn es).length % 38 ∧
    isRollover (run powerOn es) =
      (qualifying (run powerOn es) && decide (((qualTrace powerOn es).length + 1) % 283 = 0)) ∧
    isStart (run powerOn es) =
      (qualifying (run powerOn es) && decide (((qualTrace powerOn es).length + 1) % 38 = 0)) ∧
    powerOn.ctc_toggle_cycles_to_refresh_display_sequence = 0 ∧
    powerOn.ctc_toggle_cycles_to_refresh_display = 0 ∧
    qualifying (run powerOn [Event.tick]) = true ∧
    isRollover (run powerOn [Event.tick]) = false ∧
    isStart (run powerOn [Event.tick]) = false ∧
    isRollover (run intendedPowerOn es) =
      (qualifying (run intendedPowerOn es) &&
        decide ((qualTrace intendedPowerOn es).length % 283 = 0)) ∧
    isStart (run intendedPowerOn es) =
      (qualifying (run intendedPowerOn es) &&
        decide ((qualTrace intendedPowerOn es).length % 38 = 0)) := by
  obtain ⟨h1, h2⟩ := run_counters es powerOn (by decide) (by decide)
  have e1 : powerOn.ctc_toggle_cycles_to_refresh_display_sequence = 0 := rfl
  have e2 : powerOn.ctc_toggle_cycles_to_refresh_display = 0 := rfl
  rw [e1, Nat.zero_add] at h1
  rw [e2, Nat.zero_add] at h2
  obtain ⟨g1, g2⟩ := run_counters es intendedPowerOn (by decide) (by decide)
  have i1 : intendedPowerOn.ctc_toggle_cycles_to_refresh_display_sequence = 282 := rfl
  have i2 : intendedPowerOn.ctc_toggle_cycles_to_refresh_display = 37 := rfl
  rw [i1] at g1
  rw [i2] at g2
  refine ⟨by omega, by omega, h1, h2, ?_, ?_, rfl, rfl, by decide, by decide, by decide,
    ?_, ?_⟩
  · unfold isRollover
    rw [h1]
    congr 1
    rw [Bool.eq_iff_iff, beq_iff_eq, decide_eq_true_iff]
    omega
  · unfold isStart
    rw [h2]
    congr 1
    rw [Bool.eq_iff_iff, beq_iff_eq, decide_eq_true_iff]
    omega
  · unfold isRollover
    rw [g1]
    congr 1
    rw [Bool.eq_iff_iff, beq_iff_eq, decide_eq_true_iff]
    omega
  · unfold isStart
    rw [g2]
    congr 1
    rw [Bool.eq_iff_iff, beq_iff_eq, decide_eq_true_iff]
    omega

/-- Claim C17, evaluated on the code.  When a qualifying tick is both a window rollover
(window counter 282 before) and a START tick (refresh counter 37 before), the speed
after it is `min N 999` for the tally `N` and the digits written in that same tick
satisfy `d0 * 100 + d1 * 10 + d2 = min N 999`.  The first qualifying tick after
power-on is not such a tick: both counters are 0 at `main`, so it is neither a rollover
nor a START.  From the state that `.init1` and `.init3` set up it would be both. -/
theorem coinciding_rollover (s : State)
    (hq : qualifying s = true)
    (hw : s.ctc_toggle_cycles_to_refresh_display_sequence = 282)
    (hr : s.ctc_toggle_cycles_to_refresh_display = 37) :
    (TIM0_COMPA_vect s).speed = min s.frequency_counter 999 ∧
    (TIM0_COMPA_vect s).speed_digits.1 * 100 + (TIM0_COMPA_vect s).speed_digits.2.1 * 10 +
      (TIM0_COMPA_vect s).speed_digits.2.2 = min s.frequency_counter 999 ∧
    qualifying (run powerOn [Event.tick]) = true ∧
    isRollover (run powerOn [Event.tick]) = false ∧
    isStart (run powerOn [Event.tick]) = false ∧
    isRollover (run intendedPowerOn [Event.tick]) = true ∧
    isStart (run intendedPowerOn [Event.tick]) = true := by
  have hroll : isRollover s = true := by
    unfold isRollover
    simp [hq, hw]
  have hst : isStart s = true := by
    unfold isStart
    simp [hq, hr]
  have hsp := (TIM0_COMPA_vect_rollover s hroll).1
  refine ⟨hsp, ?_, by decide, by decide, by decide, by decide, by decide⟩
  rw [TIM0_COMPA_vect_start_digits s hst, hsp]
  simp only []
  omega

theorem coinciding_rollover_witness :
    qualifying heavyBurstState = true ∧
    heavyBurstState.ctc_toggle_cycles_to_refresh_display_sequence = 282 ∧
    heavyBurstState.ctc_toggle_cycles_to_refresh_display = 37 ∧
    (TIM0_COMPA_vect heavyBurstState).speed_digits = (9, 9, 9) ∧
    ((TIM0_COMPA_vect heavyBurstState).speed = min heavyBurstState.frequency_counter 999 ∧
     (TIM0_COMPA_vect heavyBurstState).speed_digits.1 * 100 +
       (TIM0_COMPA_vect heavyBurstState).speed_digits.2.1 * 10 +
       (TIM0_COMPA_vect heavyBurstState).speed_digits.2.2 =
         min heavyBurstState.frequency_counter 999 ∧
     qualifying (run powerOn [Event.tick]) = true ∧
     isRollover (run powerOn [Event.tick]) = false ∧
     isStart (run powerOn [Event.tick]) = false ∧
     isRollover (run intendedPowerOn [Event.tick]) = true ∧
     isStart (run intendedPowerOn [Event.tick]) = true) :=
  ⟨by decide, by decide, by decide, by decide,
   coinciding_rollover heavyBurstState (by decide) (by decide) (by decide)⟩

/-- Claim C18: in every state reached from power-on `current_digit_index ≤ 2`,
`current_segment_index ≤ 7` and each element of `speed_digits` is at most 9; and
whenever the timer handler does a table lookup, its cursor indexes inside the
3-element `speed_digits` and the 8 bits of a pattern, and the digit read indexes
inside the 10-element `digits_LED_segments`. -/
theorem lookup_safety (es : List Event) :
    (run powerOn es).current_digit_index ≤ 2 ∧
    (run powerOn es).current_segment_index ≤ 7 ∧
    (run powerOn es).speed_digits.1 ≤ 9 ∧
    (run powerOn es).speed_digits.2.1 ≤ 9 ∧
    (run powerOn es).speed_digits.2.2 ≤ 9 ∧
    (∀ c : Nat × Nat, lookupCursor (run powerOn es) = some c →
      c.1 < 3 ∧ c.2 < 8 ∧
      readDigit (run powerOn es).speed_digits c.1 < digits_LED_segments.length) := by
  have hinit : powerOn.current_digit_index ≤ 2 ∧ powerOn.current_segment_index ≤ 7 ∧
      powerOn.speed_digits.1 ≤ 9 ∧ powerOn.speed_digits.2.1 ≤ 9 ∧
      powerOn.speed_digits.2.2 ≤ 9 := by decide
  have hv : powerOn.speed ≤ 999 := by decide
  obtain ⟨h1, h2, h3, h4, h5⟩ := run_safe es powerOn hinit hv
  refine ⟨h1, h2, h3, h4, h5, ?_⟩
  intro c hc
  have hafter := lookupCursor_eq_cursor_after _ c hc
  rw [run_tick_last] at hafter
  obtain ⟨g1, g2, -⟩ := run_safe (es ++ [Event.tick]) powerOn hinit hv
  subst hafter
  have hd := readDigit_le (run powerOn es).speed_digits
    (run powerOn (es ++ [Event.tick])).current_digit_index ⟨h3, h4, h5⟩
  have hlen : digits_LED_segments.length = 10 := rfl
  rw [hlen]
  simp only []
  omega

/-- Claim C19: after each qualifying tick that leaves the refresh counter at a value
from 25 to 36, `PB3` is low, the cursor is (2, 7) and data-enable `PB2` is still low
(asserted); after the END tick, which leaves the counter at 37, `PB3` is still low.
So the 12 ticks after the 24 segment bits carry the bit 0, whatever the speed. -/
theorem trailing_ticks (s : State) (es : List Event) (j : Nat) (st : State)
    (hstart : s.ctc_toggle_cycles_to_refresh_display = 37)
    (hj : (qualTrace s es)[j]? = some st)
    (h25 : 25 ≤ j) (h37 : j ≤ 37) :
    st.ctc_toggle_cycles_to_refresh_display = j ∧
    pinHigh st PB3 = false ∧
    (st.current_digit_index, st.current_segment_index) = (2, 7) ∧
    pinHigh st PB2 = decide (j = 37) := by
  obtain ⟨st0, h0⟩ := qualTrace_head_of_getElem? s es j st hj
  obtain ⟨f1, -, f3, f4, f5⟩ := qualTrace_cycle es s hstart st0 h0 j st hj h37
  refine ⟨f1, ?_, ?_, f4⟩
  · rw [f5]
    unfold dataPin
    rw [if_neg (by omega), if_neg (by omega)]
  · rw [f3]
    unfold cursorAt
    rw [if_pos (by omega)]

set_option maxRecDepth 100000 in
theorem trailing_ticks_witness :
    burstState.ctc_toggle_cycles_to_refresh_display = 37 ∧
    (qualTrace burstState fullCycle)[30]? =
      some (run burstState (List.replicate 62 Event.tick)) ∧
    25 ≤ 30 ∧ 30 ≤ 37 ∧
    ((run burstState (List.replicate 62 Event.tick)).ctc_toggle_cycles_to_refresh_display = 30 ∧
     pinHigh (run burstState (List.replicate 62 Event.tick)) PB3 = false ∧
     ((run burstState (List.replicate 62 Event.tick)).current_digit_index,
       (run burstState (List.replicate 62 Event.tick)).current_segment_index) = (2, 7) ∧
     pinHigh (run burstState (List.replicate 62 Event.tick)) PB2 = decide (30 = 37)) :=
  ⟨by decide, by decide, by decide, by decide,
   trailing_ticks burstState fullCycle 30 _ (by decide) (by decide) (by decide) (by decide)⟩

end ATTiny13
